import Mathlib

/-!
Verification development for the PathOfBuilding-Python modifier parser.

This file gives a shallow embedding of the modifier-parsing core:
  * `src/pob1/models/parser/modifier_model.py`
    (ModifierForm, ModifierPattern, ModifierManager.parse_modifier,
    create_modifier_manager and its pattern table),
  * `src/pob1/constants/flags.py`
    (ModFlag.verify_weapon_flags, match_keyword_flags),
  * `src/pob1/models/parser/modifier_name_model.py`
    (ModifierNameMap, create_modifier_map),
and proves or refutes the specified properties against it.

Conventions of the embedding:
  * Python regular expressions are embedded as an explicit abstract syntax
    (`RPattern`) covering exactly the constructs occurring in the shipped
    pattern table, together with a backtracking matcher (`patMatch`) that
    models `re.match` (anchored at the start, greedy quantifiers, leftmost
    preference, captures are the consumed substrings of the groups).
    A printer `RPattern.print` maps every embedded pattern back to its
    concrete regex text, and the development proves that printing the
    embedded table reproduces exactly the strings obtained by running the
    source's Lua-to-Python rewrite over the source pattern strings.
  * Python floats are embedded as rationals; every numeric literal the
    table can capture is an exact decimal. `pyFloat` models `float(...)`
    on the capturable strings (optional sign, digits, at most one dot).
  * Python exceptions (`ValueError` from `float`, `IndexError` from list
    subscripts) are embedded as `Except PyErr`; a Python `None` result is
    `Option.none` inside the `Except`.
-/

set_option maxRecDepth 8000
set_option maxHeartbeats 1600000

/-- The `ModifierForm` enum of modifier_model.py. -/
inductive ModifierForm where
  | BASE
  | INCREASE
  | REDUCE
  | MORE
  | LESS
  | GAIN
  | LOSE
  | GRANTS
  | REMOVES
  | CHANCE
  | FLAG
  | TOTAL_COST
  | BASE_COST
  | PENETRATION
  | DAMAGE
  | DAMAGE_ATTACKS
  | DAMAGE_SPELLS
  | DAMAGE_BOTH
  | REGEN_FLAT
  | REGEN_PERCENT
  | DEGEN_FLAT
  | DEGEN_PERCENT
  | DEGEN
  | OVERRIDE
  deriving DecidableEq, Repr

/-- Character classes occurring in the table's regexes after the
Lua-to-Python rewrite: `\d`, `[\d\.]`, `[a-zA-Z]`, `[\+\-]`, `.` . -/
inductive CClass where
  | digit
  | digitDot
  | alpha
  | sign
  | anyc
  deriving DecidableEq, Repr

/-- Membership of a character in a class, as Python `re` decides it
(`.` matches anything except a newline). -/
def CClass.mem : CClass → Char → Bool
  | .digit, c => c.isDigit
  | .digitDot, c => c.isDigit || c == '.'
  | .alpha, c => (('a' ≤ c && c ≤ 'z') || ('A' ≤ c && c ≤ 'Z'))
  | .sign, c => c == '+' || c == '-'
  | .anyc, c => c != '\n'

/-- An atom of the regex dialect: a literal character or a class. -/
inductive RAtom where
  | lit (c : Char)
  | cls (k : CClass)
  deriving DecidableEq, Repr

def RAtom.mem : RAtom → Char → Bool
  | .lit c, d => c == d
  | .cls k, d => k.mem d

/-- A possibly quantified atom: `a`, `a?` or `a+`. -/
inductive SItem where
  | one (a : RAtom)
  | opt (a : RAtom)
  | plus (a : RAtom)
  deriving DecidableEq, Repr

/-- A top-level element of a pattern: a plain item or a capture group
(the shipped table has no nested groups). -/
inductive TItem where
  | plain (s : SItem)
  | group (g : List SItem)
  deriving DecidableEq, Repr

/-- A compiled pattern: whether the source text started with `^`
(irrelevant to `re.match`, which is anchored anyway) and the item list. -/
structure RPattern where
  caret : Bool
  items : List TItem
  deriving DecidableEq, Repr

/-- Length of the maximal prefix of `cs` all of whose characters match `a`. -/
def runLen (a : RAtom) : List Char → Nat
  | [] => 0
  | c :: cs => if a.mem c then runLen a cs + 1 else 0

/-- The consumption-length candidates of one quantified atom on input `cs`,
in the preference order of Python's backtracking engine: a greedy `+` tries
the longest run first, a greedy `?` tries presence before absence. -/
def SItem.cands : SItem → List Char → List Nat
  | .one _, [] => []
  | .one a, c :: _ => if a.mem c then [1] else []
  | .opt _, [] => [0]
  | .opt a, c :: _ => if a.mem c then [1, 0] else [0]
  | .plus a, cs =>
      let m := runLen a cs
      (List.range m).map (fun i => m - i)

/-- Consumption-length candidates of a sequence of quantified atoms
(the body of a capture group), in backtracking preference order. -/
def seqCands : List SItem → List Char → List Nat
  | [], _ => [0]
  | it :: rest, cs =>
      (it.cands cs).flatMap
        (fun n => (seqCands rest (List.drop n cs)).map (fun k => n + k))

/-- Return the first success among the candidates, in order. -/
def firstSome : List Nat → (Nat → Option α) → Option α
  | [], _ => none
  | n :: ns, f =>
      match f n with
      | some r => some r
      | none => firstSome ns f

/-- The backtracking matcher: match the items against a prefix of `cs`,
accumulating the captured group substrings in order.  Trailing input may
remain unconsumed, exactly as with `re.match` without a `$` anchor. -/
def matchTs : List TItem → List Char → List String → Option (List String)
  | [], _, caps => some caps
  | .plain it :: rest, cs, caps =>
      firstSome (it.cands cs) (fun n => matchTs rest (List.drop n cs) caps)
  | .group g :: rest, cs, caps =>
      firstSome (seqCands g cs)
        (fun n => matchTs rest (List.drop n cs) (caps ++ [String.mk (List.take n cs)]))

/-- Model of `ModifierPattern.match`: `re.match(self.pattern, text)`, returning
`list(match.groups())` on success and `None` otherwise. -/
def patMatch (p : RPattern) (text : String) : Option (List String) :=
  matchTs p.items text.data []

/-- Print an atom back to its concrete regex text (the escaping used by the
stored, already-rewritten pattern strings). -/
def RAtom.print : RAtom → String
  | .lit '+' => "\\+"
  | .lit '?' => "\\?"
  | .lit c => String.mk [c]
  | .cls .digit => "\\d"
  | .cls .digitDot => "[\\d\\.]"
  | .cls .alpha => "[a-zA-Z]"
  | .cls .sign => "[\\+\\-]"
  | .cls .anyc => "."

def SItem.print : SItem → String
  | .one a => a.print
  | .opt a => a.print ++ "?"
  | .plus a => a.print ++ "+"

def TItem.print : TItem → String
  | .plain s => s.print
  | .group g => "(" ++ String.join (g.map SItem.print) ++ ")"

/-- Print a compiled pattern back to the stored regex string. -/
def RPattern.print (p : RPattern) : String :=
  (if p.caret then "^" else "") ++ String.join (p.items.map TItem.print)

/-- One fuel step per input character: Python `str.replace`, replacing every
non-overlapping occurrence of `pat` left to right (for non-empty `pat`). -/
def replaceFuel (pat rep : List Char) : Nat → List Char → List Char
  | _, [] => []
  | 0, cs => cs
  | fuel + 1, c :: cs =>
      if pat.isPrefixOf (c :: cs) then
        rep ++ replaceFuel pat rep fuel (List.drop (pat.length - 1) cs)
      else
        c :: replaceFuel pat rep fuel cs

/-- Python `s.replace(pat, rep)` for a non-empty pattern. -/
def pyReplace (s pat rep : String) : String :=
  String.mk (replaceFuel pat.data rep.data s.data.length s.data)

/-- The Lua-to-Python token rewrite of `ModifierPattern.validate_pattern`:
eight unconditional `str.replace` passes, applied in source order to every
registered pattern string. -/
def luaToPython (v : String) : String :=
  pyReplace (pyReplace (pyReplace (pyReplace (pyReplace (pyReplace (pyReplace
    (pyReplace v "%d" "\\d")
    "%a" "[a-zA-Z]")
    "%+" "\\+")
    "%-" "\\-")
    "%." "\\.")
    "%?" "\\?")
    "%s" "\\s")
    "%%" "%"

/-- Exceptions parse_modifier can raise: `ValueError` from `float(...)`,
`IndexError` from a list subscript. -/
inductive PyErr where
  | valueError
  | indexError
  deriving DecidableEq, Repr

instance instDecEqExcept [DecidableEq ε] [DecidableEq α] :
    DecidableEq (Except ε α) := fun a b =>
  match a, b with
  | .error e, .error e' =>
      if h : e = e' then .isTrue (by rw [h]) else .isFalse (by simp [h])
  | .error _, .ok _ => .isFalse (by simp)
  | .ok _, .error _ => .isFalse (by simp)
  | .ok x, .ok x' =>
      if h : x = x' then .isTrue (by rw [h]) else .isFalse (by simp [h])

/-- Python list subscript `l[i]`. -/
def pyGet (l : List String) (i : Nat) : Except PyErr String :=
  match l.get? i with
  | some s => .ok s
  | none => .error .indexError

/-- Value of a digit string, most significant first. -/
def digitsVal (l : List Char) : Nat :=
  l.foldl (fun acc c => acc * 10 + (c.toNat - 48)) 0

/-- Apply a sign to a natural numerator. -/
def sgnInt (neg : Bool) (n : Nat) : Int :=
  if neg then -(n : Int) else (n : Int)

/-- Model of `float(...)` on an unsigned body: digits with at most one dot and at
least one digit; anything else raises `ValueError`.  The value is the exact
decimal `intPart.frac`, as a rational. -/
def pyFloatBody (neg : Bool) (rest : List Char) : Except PyErr ℚ :=
  let intPart := rest.takeWhile Char.isDigit
  let rest2 := rest.dropWhile Char.isDigit
  match rest2 with
  | [] =>
      if intPart.isEmpty then .error .valueError
      else .ok (mkRat (sgnInt neg (digitsVal intPart)) 1)
  | '.' :: frac =>
      if frac.all Char.isDigit then
        if intPart.isEmpty && frac.isEmpty then .error .valueError
        else .ok (mkRat
          (sgnInt neg (digitsVal intPart * 10 ^ frac.length + digitsVal frac))
          (10 ^ frac.length))
      else .error .valueError
  | _ => .error .valueError

/-- Python `float(s)` on the strings the table can capture (an optional
sign, then digits with at most one dot). -/
def pyFloat (s : String) : Except PyErr ℚ :=
  match s.data with
  | '+' :: r => pyFloatBody false r
  | '-' :: r => pyFloatBody true r
  | r => pyFloatBody false r

/-- The result variants parse_modifier constructs: NumericModifier,
DamageModifier and RegenerationModifier.  None of the three pydantic
models declares a validator, so construction is the plain constructor. -/
inductive ParsedMod where
  | numeric (text : String) (form : ModifierForm) (value : ℚ)
  | damage (text : String) (form : ModifierForm) (minDamage maxDamage : ℚ)
      (damageType : String)
  | regen (text : String) (form : ModifierForm) (value : ℚ) (resource : String)
  deriving DecidableEq, Repr

def isDamageForm (f : ModifierForm) : Bool :=
  f == .DAMAGE || f == .DAMAGE_ATTACKS || f == .DAMAGE_SPELLS || f == .DAMAGE_BOTH

def isRegenForm (f : ModifierForm) : Bool :=
  f == .REGEN_FLAT || f == .REGEN_PERCENT || f == .DEGEN_FLAT || f == .DEGEN_PERCENT

/-- The body of one loop iteration of `ModifierManager.parse_modifier`
after a truthy match, building the modifier object for the pattern's form
family; subscripts and `float` conversions are evaluated in Python's
left-to-right keyword-argument order. -/
def applyPattern (form : ModifierForm) (text : String) (caps : List String) :
    Except PyErr ParsedMod :=
  if isDamageForm form then do
    let m0 ← pyGet caps 0
    let mn ← pyFloat m0
    let m1 ← pyGet caps 1
    let mx ← pyFloat m1
    let m2 ← pyGet caps 2
    return ParsedMod.damage text form mn mx m2
  else if isRegenForm form then do
    let m0 ← pyGet caps 0
    let v ← pyFloat m0
    let m1 ← pyGet caps 1
    return ParsedMod.regen text form v m1
  else
    if caps.isEmpty then return ParsedMod.numeric text form 0
    else do
      let m0 ← pyGet caps 0
      let v ← pyFloat m0
      return ParsedMod.numeric text form v

/-- Truthiness of `matches := pattern.match(text)` in Python: `None` is
falsy, and so is an empty list of captures. -/
def truthy (o : Option (List String)) : Bool :=
  match o with
  | some caps => !caps.isEmpty
  | none => false

/-- Model of `ModifierManager.parse_modifier`: scan the patterns in registration
order; the guard `if matches := pattern.match(text)` takes a branch only
when the capture list is non-empty (a matching zero-group pattern produces
`[]`, which is falsy, and is therefore skipped); if no pattern takes a
branch the function returns `None`. -/
def parseModifier :
    List (RPattern × ModifierForm) → String → Except PyErr (Option ParsedMod)
  | [], _ => .ok none
  | (p, f) :: rest, text =>
      match patMatch p text with
      | some caps =>
          if caps.isEmpty then parseModifier rest text
          else (applyPattern f text caps).map some
      | none => parseModifier rest text

/-- Model of `ModifierManager.add_pattern`: appends one (validated) pattern. -/
def addPattern (m : List (RPattern × ModifierForm)) (p : RPattern)
    (f : ModifierForm) : List (RPattern × ModifierForm) :=
  m ++ [(p, f)]

/-- A run of literal characters, as pattern items. -/
def lits (s : String) : List TItem :=
  s.data.map (fun c => TItem.plain (SItem.one (RAtom.lit c)))
/-- The pattern table of `create_modifier_manager`, as the (pattern
string, form) pairs written in the source, in registration order. -/
def formList : List (String × ModifierForm) :=
  [("^(\\d+)% increased", .INCREASE),
   ("^(\\d+)% faster", .INCREASE),
   ("^(\\d+)% reduced", .REDUCE),
   ("^(\\d+)% slower", .REDUCE),
   ("^(\\d+)% more", .MORE),
   ("^(\\d+)% less", .LESS),
   ("^([\\+\\-][\\d\\.]+)%?", .BASE),
   ("^([\\+\\-][\\d\\.]+)%? to", .BASE),
   ("^([\\+\\-]?[\\d\\.]+)%? of", .BASE),
   ("^([\\+\\-][\\d\\.]+)%? base", .BASE),
   ("^([\\+\\-]?[\\d\\.]+)%? additional", .BASE),
   ("(\\d+) additional hits?", .BASE),
   ("^throw up to (\\d+)", .BASE),
   ("^you gain ([\\d\\.]+)", .GAIN),
   ("^gains? ([\\d\\.]+)%? of", .GAIN),
   ("^gain ([\\d\\.]+)", .GAIN),
   ("^gain \\+(\\d+)% to", .GAIN),
   ("^you lose ([\\d\\.]+)", .LOSE),
   ("^loses? ([\\d\\.]+)% of", .LOSE),
   ("^lose ([\\d\\.]+)", .LOSE),
   ("^lose \\+(\\d+)% to", .LOSE),
   ("^grants ([\\d\\.]+)", .GRANTS),
   ("^removes? ([\\d\\.]+) ?o?f? ?y?o?u?r?", .REMOVES),
   ("^(\\d+)", .BASE),
   ("^([\\+\\-]?\\d+)% chance", .CHANCE),
   ("^([\\+\\-]?\\d+)% chance to gain ", .FLAG),
   ("^([\\+\\-]?\\d+)% additional chance", .CHANCE),
   ("costs? ([\\+\\-]?\\d+)", .TOTAL_COST),
   ("skills cost ([\\+\\-]?\\d+)", .BASE_COST),
   ("penetrates? (\\d+)%", .PENETRATION),
   ("penetrates (\\d+)% of", .PENETRATION),
   ("penetrates (\\d+)% of enemy", .PENETRATION),
   ("^([\\d\\.]+) (.+) regenerated per second", .REGEN_FLAT),
   ("^([\\d\\.]+)% (.+) regenerated per second", .REGEN_PERCENT),
   ("^([\\d\\.]+)% of (.+) regenerated per second", .REGEN_PERCENT),
   ("^regenerate ([\\d\\.]+) (.-) per second", .REGEN_FLAT),
   ("^regenerate ([\\d\\.]+)% (.-) per second", .REGEN_PERCENT),
   ("^regenerate ([\\d\\.]+)% of (.-) per second", .REGEN_PERCENT),
   ("^regenerate ([\\d\\.]+)% of your (.-) per second", .REGEN_PERCENT),
   ("^you regenerate ([\\d\\.]+)% of (.-) per second", .REGEN_PERCENT),
   ("^([\\d\\.]+) (.+) lost per second", .DEGEN_FLAT),
   ("^([\\d\\.]+)% (.+) lost per second", .DEGEN_PERCENT),
   ("^([\\d\\.]+)% of (.+) lost per second", .DEGEN_PERCENT),
   ("^lose ([\\d\\.]+) (.-) per second", .DEGEN_FLAT),
   ("^lose ([\\d\\.]+)% (.-) per second", .DEGEN_PERCENT),
   ("^lose ([\\d\\.]+)% of (.-) per second", .DEGEN_PERCENT),
   ("^lose ([\\d\\.]+)% of your (.-) per second", .DEGEN_PERCENT),
   ("^you lose ([\\d\\.]+)% of (.-) per second", .DEGEN_PERCENT),
   ("^([\\d\\.]+) ([a-zA-Z]+) damage taken per second", .DEGEN),
   ("^([\\d\\.]+) ([a-zA-Z]+) damage per second", .DEGEN),
   ("(\\d+) to (\\d+) added ([a-zA-Z]+) damage", .DAMAGE),
   ("(\\d+)-(\\d+) added ([a-zA-Z]+) damage", .DAMAGE),
   ("(\\d+) to (\\d+) additional ([a-zA-Z]+) damage", .DAMAGE),
   ("(\\d+)-(\\d+) additional ([a-zA-Z]+) damage", .DAMAGE),
   ("^(\\d+) to (\\d+) ([a-zA-Z]+) damage", .DAMAGE),
   ("adds (\\d+) to (\\d+) ([a-zA-Z]+) damage", .DAMAGE),
   ("adds (\\d+)-(\\d+) ([a-zA-Z]+) damage", .DAMAGE),
   ("adds (\\d+) to (\\d+) ([a-zA-Z]+) damage to attacks", .DAMAGE_ATTACKS),
   ("adds (\\d+)-(\\d+) ([a-zA-Z]+) damage to attacks", .DAMAGE_ATTACKS),
   ("adds (\\d+) to (\\d+) ([a-zA-Z]+) attack damage", .DAMAGE_ATTACKS),
   ("adds (\\d+)-(\\d+) ([a-zA-Z]+) attack damage", .DAMAGE_ATTACKS),
   ("(\\d+) to (\\d+) added attack ([a-zA-Z]+) damage", .DAMAGE_ATTACKS),
   ("adds (\\d+) to (\\d+) ([a-zA-Z]+) damage to spells", .DAMAGE_SPELLS),
   ("adds (\\d+)-(\\d+) ([a-zA-Z]+) damage to spells", .DAMAGE_SPELLS),
   ("adds (\\d+) to (\\d+) ([a-zA-Z]+) spell damage", .DAMAGE_SPELLS),
   ("adds (\\d+)-(\\d+) ([a-zA-Z]+) spell damage", .DAMAGE_SPELLS),
   ("(\\d+) to (\\d+) added spell ([a-zA-Z]+) damage", .DAMAGE_SPELLS),
   ("adds (\\d+) to (\\d+) ([a-zA-Z]+) damage to attacks and spells", .DAMAGE_BOTH),
   ("adds (\\d+)-(\\d+) ([a-zA-Z]+) damage to attacks and spells", .DAMAGE_BOTH),
   ("adds (\\d+) to (\\d+) ([a-zA-Z]+) damage to spells and attacks", .DAMAGE_BOTH),
   ("adds (\\d+)-(\\d+) ([a-zA-Z]+) damage to spells and attacks", .DAMAGE_BOTH),
   ("adds (\\d+) to (\\d+) ([a-zA-Z]+) damage to hits", .DAMAGE_BOTH),
   ("adds (\\d+)-(\\d+) ([a-zA-Z]+) damage to hits", .DAMAGE_BOTH),
   ("^you have ", .FLAG),
   ("^have ", .FLAG),
   ("^you are ", .FLAG),
   ("^are ", .FLAG),
   ("^gain ", .FLAG),
   ("^you gain ", .FLAG),
   ("is (-?\\d+)%? ", .OVERRIDE)]

/-- compiled pattern 0: `^(\d+)% increased` -/
def pat0 : RPattern :=
  ⟨true, [.group [.plus (.cls .digit)]] ++ lits "% increased"⟩

/-- compiled pattern 1: `^(\d+)% faster` -/
def pat1 : RPattern :=
  ⟨true, [.group [.plus (.cls .digit)]] ++ lits "% faster"⟩

/-- compiled pattern 2: `^(\d+)% reduced` -/
def pat2 : RPattern :=
  ⟨true, [.group [.plus (.cls .digit)]] ++ lits "% reduced"⟩

/-- compiled pattern 3: `^(\d+)% slower` -/
def pat3 : RPattern :=
  ⟨true, [.group [.plus (.cls .digit)]] ++ lits "% slower"⟩

/-- compiled pattern 4: `^(\d+)% more` -/
def pat4 : RPattern :=
  ⟨true, [.group [.plus (.cls .digit)]] ++ lits "% more"⟩

/-- compiled pattern 5: `^(\d+)% less` -/
def pat5 : RPattern :=
  ⟨true, [.group [.plus (.cls .digit)]] ++ lits "% less"⟩

/-- compiled pattern 6: `^([\+\-][\d\.]+)\?` -/
def pat6 : RPattern :=
  ⟨true, [.group [.one (.cls .sign), .plus (.cls .digitDot)]] ++ lits "?"⟩

/-- compiled pattern 7: `^([\+\-][\d\.]+)\? to` -/
def pat7 : RPattern :=
  ⟨true, [.group [.one (.cls .sign), .plus (.cls .digitDot)]] ++ lits "? to"⟩

/-- compiled pattern 8: `^([\+\-]?[\d\.]+)\? of` -/
def pat8 : RPattern :=
  ⟨true, [.group [.opt (.cls .sign), .plus (.cls .digitDot)]] ++ lits "? of"⟩

/-- compiled pattern 9: `^([\+\-][\d\.]+)\? base` -/
def pat9 : RPattern :=
  ⟨true, [.group [.one (.cls .sign), .plus (.cls .digitDot)]] ++ lits "? base"⟩

/-- compiled pattern 10: `^([\+\-]?[\d\.]+)\? additional` -/
def pat10 : RPattern :=
  ⟨true, [.group [.opt (.cls .sign), .plus (.cls .digitDot)]] ++ lits "? additional"⟩

/-- compiled pattern 11: `(\d+) additional hits?` -/
def pat11 : RPattern :=
  ⟨false, [.group [.plus (.cls .digit)]] ++ lits " additional hit" ++ [.plain (.opt (.lit 's'))]⟩

/-- compiled pattern 12: `^throw up to (\d+)` -/
def pat12 : RPattern :=
  ⟨true, lits "throw up to " ++ [.group [.plus (.cls .digit)]]⟩

/-- compiled pattern 13: `^you gain ([\d\.]+)` -/
def pat13 : RPattern :=
  ⟨true, lits "you gain " ++ [.group [.plus (.cls .digitDot)]]⟩

/-- compiled pattern 14: `^gains? ([\d\.]+)\? of` -/
def pat14 : RPattern :=
  ⟨true, lits "gain" ++ [.plain (.opt (.lit 's'))] ++ lits " " ++ [.group [.plus (.cls .digitDot)]] ++ lits "? of"⟩

/-- compiled pattern 15: `^gain ([\d\.]+)` -/
def pat15 : RPattern :=
  ⟨true, lits "gain " ++ [.group [.plus (.cls .digitDot)]]⟩

/-- compiled pattern 16: `^gain \+(\d+)% to` -/
def pat16 : RPattern :=
  ⟨true, lits "gain +" ++ [.group [.plus (.cls .digit)]] ++ lits "% to"⟩

/-- compiled pattern 17: `^you lose ([\d\.]+)` -/
def pat17 : RPattern :=
  ⟨true, lits "you lose " ++ [.group [.plus (.cls .digitDot)]]⟩

/-- compiled pattern 18: `^loses? ([\d\.]+)% of` -/
def pat18 : RPattern :=
  ⟨true, lits "lose" ++ [.plain (.opt (.lit 's'))] ++ lits " " ++ [.group [.plus (.cls .digitDot)]] ++ lits "% of"⟩

/-- compiled pattern 19: `^lose ([\d\.]+)` -/
def pat19 : RPattern :=
  ⟨true, lits "lose " ++ [.group [.plus (.cls .digitDot)]]⟩

/-- compiled pattern 20: `^lose \+(\d+)% to` -/
def pat20 : RPattern :=
  ⟨true, lits "lose +" ++ [.group [.plus (.cls .digit)]] ++ lits "% to"⟩

/-- compiled pattern 21: `^grants ([\d\.]+)` -/
def pat21 : RPattern :=
  ⟨true, lits "grants " ++ [.group [.plus (.cls .digitDot)]]⟩

/-- compiled pattern 22: `^removes? ([\d\.]+) ?o?f? ?y?o?u?r?` -/
def pat22 : RPattern :=
  ⟨true, lits "remove" ++ [.plain (.opt (.lit 's'))] ++ lits " " ++ [.group [.plus (.cls .digitDot)], .plain (.opt (.lit ' ')), .plain (.opt (.lit 'o')), .plain (.opt (.lit 'f')), .plain (.opt (.lit ' ')), .plain (.opt (.lit 'y')), .plain (.opt (.lit 'o')), .plain (.opt (.lit 'u')), .plain (.opt (.lit 'r'))]⟩

/-- compiled pattern 23: `^(\d+)` -/
def pat23 : RPattern :=
  ⟨true, [.group [.plus (.cls .digit)]]⟩

/-- compiled pattern 24: `^([\+\-]?\d+)% chance` -/
def pat24 : RPattern :=
  ⟨true, [.group [.opt (.cls .sign), .plus (.cls .digit)]] ++ lits "% chance"⟩

/-- compiled pattern 25: `^([\+\-]?\d+)% chance to gain ` -/
def pat25 : RPattern :=
  ⟨true, [.group [.opt (.cls .sign), .plus (.cls .digit)]] ++ lits "% chance to gain "⟩

/-- compiled pattern 26: `^([\+\-]?\d+)% additional chance` -/
def pat26 : RPattern :=
  ⟨true, [.group [.opt (.cls .sign), .plus (.cls .digit)]] ++ lits "% additional chance"⟩

/-- compiled pattern 27: `costs? ([\+\-]?\d+)` -/
def pat27 : RPattern :=
  ⟨false, lits "cost" ++ [.plain (.opt (.lit 's'))] ++ lits " " ++ [.group [.opt (.cls .sign), .plus (.cls .digit)]]⟩

/-- compiled pattern 28: `skills cost ([\+\-]?\d+)` -/
def pat28 : RPattern :=
  ⟨false, lits "skills cost " ++ [.group [.opt (.cls .sign), .plus (.cls .digit)]]⟩

/-- compiled pattern 29: `penetrates? (\d+)%` -/
def pat29 : RPattern :=
  ⟨false, lits "penetrate" ++ [.plain (.opt (.lit 's'))] ++ lits " " ++ [.group [.plus (.cls .digit)]] ++ lits "%"⟩

/-- compiled pattern 30: `penetrates (\d+)% of` -/
def pat30 : RPattern :=
  ⟨false, lits "penetrates " ++ [.group [.plus (.cls .digit)]] ++ lits "% of"⟩

/-- compiled pattern 31: `penetrates (\d+)% of enemy` -/
def pat31 : RPattern :=
  ⟨false, lits "penetrates " ++ [.group [.plus (.cls .digit)]] ++ lits "% of enemy"⟩

/-- compiled pattern 32: `^([\d\.]+) (.+) regenerated per second` -/
def pat32 : RPattern :=
  ⟨true, [.group [.plus (.cls .digitDot)]] ++ lits " " ++ [.group [.plus (.cls .anyc)]] ++ lits " regenerated per second"⟩

/-- compiled pattern 33: `^([\d\.]+)% (.+) regenerated per second` -/
def pat33 : RPattern :=
  ⟨true, [.group [.plus (.cls .digitDot)]] ++ lits "% " ++ [.group [.plus (.cls .anyc)]] ++ lits " regenerated per second"⟩

/-- compiled pattern 34: `^([\d\.]+)% of (.+) regenerated per second` -/
def pat34 : RPattern :=
  ⟨true, [.group [.plus (.cls .digitDot)]] ++ lits "% of " ++ [.group [.plus (.cls .anyc)]] ++ lits " regenerated per second"⟩

/-- compiled pattern 35: `^regenerate ([\d\.]+) (.-) per second` -/
def pat35 : RPattern :=
  ⟨true, lits "regenerate " ++ [.group [.plus (.cls .digitDot)]] ++ lits " " ++ [.group [.one (.cls .anyc), .one (.lit '-')]] ++ lits " per second"⟩

/-- compiled pattern 36: `^regenerate ([\d\.]+)% (.-) per second` -/
def pat36 : RPattern :=
  ⟨true, lits "regenerate " ++ [.group [.plus (.cls .digitDot)]] ++ lits "% " ++ [.group [.one (.cls .anyc), .one (.lit '-')]] ++ lits " per second"⟩

/-- compiled pattern 37: `^regenerate ([\d\.]+)% of (.-) per second` -/
def pat37 : RPattern :=
  ⟨true, lits "regenerate " ++ [.group [.plus (.cls .digitDot)]] ++ lits "% of " ++ [.group [.one (.cls .anyc), .one (.lit '-')]] ++ lits " per second"⟩

/-- compiled pattern 38: `^regenerate ([\d\.]+)% of your (.-) per second` -/
def pat38 : RPattern :=
  ⟨true, lits "regenerate " ++ [.group [.plus (.cls .digitDot)]] ++ lits "% of your " ++ [.group [.one (.cls .anyc), .one (.lit '-')]] ++ lits " per second"⟩

/-- compiled pattern 39: `^you regenerate ([\d\.]+)% of (.-) per second` -/
def pat39 : RPattern :=
  ⟨true, lits "you regenerate " ++ [.group [.plus (.cls .digitDot)]] ++ lits "% of " ++ [.group [.one (.cls .anyc), .one (.lit '-')]] ++ lits " per second"⟩

/-- compiled pattern 40: `^([\d\.]+) (.+) lost per second` -/
def pat40 : RPattern :=
  ⟨true, [.group [.plus (.cls .digitDot)]] ++ lits " " ++ [.group [.plus (.cls .anyc)]] ++ lits " lost per second"⟩

/-- compiled pattern 41: `^([\d\.]+)% (.+) lost per second` -/
def pat41 : RPattern :=
  ⟨true, [.group [.plus (.cls .digitDot)]] ++ lits "% " ++ [.group [.plus (.cls .anyc)]] ++ lits " lost per second"⟩

/-- compiled pattern 42: `^([\d\.]+)% of (.+) lost per second` -/
def pat42 : RPattern :=
  ⟨true, [.group [.plus (.cls .digitDot)]] ++ lits "% of " ++ [.group [.plus (.cls .anyc)]] ++ lits " lost per second"⟩

/-- compiled pattern 43: `^lose ([\d\.]+) (.-) per second` -/
def pat43 : RPattern :=
  ⟨true, lits "lose " ++ [.group [.plus (.cls .digitDot)]] ++ lits " " ++ [.group [.one (.cls .anyc), .one (.lit '-')]] ++ lits " per second"⟩

/-- compiled pattern 44: `^lose ([\d\.]+)% (.-) per second` -/
def pat44 : RPattern :=
  ⟨true, lits "lose " ++ [.group [.plus (.cls .digitDot)]] ++ lits "% " ++ [.group [.one (.cls .anyc), .one (.lit '-')]] ++ lits " per second"⟩

/-- compiled pattern 45: `^lose ([\d\.]+)% of (.-) per second` -/
def pat45 : RPattern :=
  ⟨true, lits "lose " ++ [.group [.plus (.cls .digitDot)]] ++ lits "% of " ++ [.group [.one (.cls .anyc), .one (.lit '-')]] ++ lits " per second"⟩

/-- compiled pattern 46: `^lose ([\d\.]+)% of your (.-) per second` -/
def pat46 : RPattern :=
  ⟨true, lits "lose " ++ [.group [.plus (.cls .digitDot)]] ++ lits "% of your " ++ [.group [.one (.cls .anyc), .one (.lit '-')]] ++ lits " per second"⟩

/-- compiled pattern 47: `^you lose ([\d\.]+)% of (.-) per second` -/
def pat47 : RPattern :=
  ⟨true, lits "you lose " ++ [.group [.plus (.cls .digitDot)]] ++ lits "% of " ++ [.group [.one (.cls .anyc), .one (.lit '-')]] ++ lits " per second"⟩

/-- compiled pattern 48: `^([\d\.]+) ([a-zA-Z]+) damage taken per second` -/
def pat48 : RPattern :=
  ⟨true, [.group [.plus (.cls .digitDot)]] ++ lits " " ++ [.group [.plus (.cls .alpha)]] ++ lits " damage taken per second"⟩

/-- compiled pattern 49: `^([\d\.]+) ([a-zA-Z]+) damage per second` -/
def pat49 : RPattern :=
  ⟨true, [.group [.plus (.cls .digitDot)]] ++ lits " " ++ [.group [.plus (.cls .alpha)]] ++ lits " damage per second"⟩

/-- compiled pattern 50: `(\d+) to (\d+) added ([a-zA-Z]+) damage` -/
def pat50 : RPattern :=
  ⟨false, [.group [.plus (.cls .digit)]] ++ lits " to " ++ [.group [.plus (.cls .digit)]] ++ lits " added " ++ [.group [.plus (.cls .alpha)]] ++ lits " damage"⟩

/-- compiled pattern 51: `(\d+)-(\d+) added ([a-zA-Z]+) damage` -/
def pat51 : RPattern :=
  ⟨false, [.group [.plus (.cls .digit)]] ++ lits "-" ++ [.group [.plus (.cls .digit)]] ++ lits " added " ++ [.group [.plus (.cls .alpha)]] ++ lits " damage"⟩

/-- compiled pattern 52: `(\d+) to (\d+) additional ([a-zA-Z]+) damage` -/
def pat52 : RPattern :=
  ⟨false, [.group [.plus (.cls .digit)]] ++ lits " to " ++ [.group [.plus (.cls .digit)]] ++ lits " additional " ++ [.group [.plus (.cls .alpha)]] ++ lits " damage"⟩

/-- compiled pattern 53: `(\d+)-(\d+) additional ([a-zA-Z]+) damage` -/
def pat53 : RPattern :=
  ⟨false, [.group [.plus (.cls .digit)]] ++ lits "-" ++ [.group [.plus (.cls .digit)]] ++ lits " additional " ++ [.group [.plus (.cls .alpha)]] ++ lits " damage"⟩

/-- compiled pattern 54: `^(\d+) to (\d+) ([a-zA-Z]+) damage` -/
def pat54 : RPattern :=
  ⟨true, [.group [.plus (.cls .digit)]] ++ lits " to " ++ [.group [.plus (.cls .digit)]] ++ lits " " ++ [.group [.plus (.cls .alpha)]] ++ lits " damage"⟩

/-- compiled pattern 55: `adds (\d+) to (\d+) ([a-zA-Z]+) damage` -/
def pat55 : RPattern :=
  ⟨false, lits "adds " ++ [.group [.plus (.cls .digit)]] ++ lits " to " ++ [.group [.plus (.cls .digit)]] ++ lits " " ++ [.group [.plus (.cls .alpha)]] ++ lits " damage"⟩

/-- compiled pattern 56: `adds (\d+)-(\d+) ([a-zA-Z]+) damage` -/
def pat56 : RPattern :=
  ⟨false, lits "adds " ++ [.group [.plus (.cls .digit)]] ++ lits "-" ++ [.group [.plus (.cls .digit)]] ++ lits " " ++ [.group [.plus (.cls .alpha)]] ++ lits " damage"⟩

/-- compiled pattern 57: `adds (\d+) to (\d+) ([a-zA-Z]+) damage to attacks` -/
def pat57 : RPattern :=
  ⟨false, lits "adds " ++ [.group [.plus (.cls .digit)]] ++ lits " to " ++ [.group [.plus (.cls .digit)]] ++ lits " " ++ [.group [.plus (.cls .alpha)]] ++ lits " damage to attacks"⟩

/-- compiled pattern 58: `adds (\d+)-(\d+) ([a-zA-Z]+) damage to attacks` -/
def pat58 : RPattern :=
  ⟨false, lits "adds " ++ [.group [.plus (.cls .digit)]] ++ lits "-" ++ [.group [.plus (.cls .digit)]] ++ lits " " ++ [.group [.plus (.cls .alpha)]] ++ lits " damage to attacks"⟩

/-- compiled pattern 59: `adds (\d+) to (\d+) ([a-zA-Z]+) attack damage` -/
def pat59 : RPattern :=
  ⟨false, lits "adds " ++ [.group [.plus (.cls .digit)]] ++ lits " to " ++ [.group [.plus (.cls .digit)]] ++ lits " " ++ [.group [.plus (.cls .alpha)]] ++ lits " attack damage"⟩

/-- compiled pattern 60: `adds (\d+)-(\d+) ([a-zA-Z]+) attack damage` -/
def pat60 : RPattern :=
  ⟨false, lits "adds " ++ [.group [.plus (.cls .digit)]] ++ lits "-" ++ [.group [.plus (.cls .digit)]] ++ lits " " ++ [.group [.plus (.cls .alpha)]] ++ lits " attack damage"⟩

/-- compiled pattern 61: `(\d+) to (\d+) added attack ([a-zA-Z]+) damage` -/
def pat61 : RPattern :=
  ⟨false, [.group [.plus (.cls .digit)]] ++ lits " to " ++ [.group [.plus (.cls .digit)]] ++ lits " added attack " ++ [.group [.plus (.cls .alpha)]] ++ lits " damage"⟩

/-- compiled pattern 62: `adds (\d+) to (\d+) ([a-zA-Z]+) damage to spells` -/
def pat62 : RPattern :=
  ⟨false, lits "adds " ++ [.group [.plus (.cls .digit)]] ++ lits " to " ++ [.group [.plus (.cls .digit)]] ++ lits " " ++ [.group [.plus (.cls .alpha)]] ++ lits " damage to spells"⟩

/-- compiled pattern 63: `adds (\d+)-(\d+) ([a-zA-Z]+) damage to spells` -/
def pat63 : RPattern :=
  ⟨false, lits "adds " ++ [.group [.plus (.cls .digit)]] ++ lits "-" ++ [.group [.plus (.cls .digit)]] ++ lits " " ++ [.group [.plus (.cls .alpha)]] ++ lits " damage to spells"⟩

/-- compiled pattern 64: `adds (\d+) to (\d+) ([a-zA-Z]+) spell damage` -/
def pat64 : RPattern :=
  ⟨false, lits "adds " ++ [.group [.plus (.cls .digit)]] ++ lits " to " ++ [.group [.plus (.cls .digit)]] ++ lits " " ++ [.group [.plus (.cls .alpha)]] ++ lits " spell damage"⟩

/-- compiled pattern 65: `adds (\d+)-(\d+) ([a-zA-Z]+) spell damage` -/
def pat65 : RPattern :=
  ⟨false, lits "adds " ++ [.group [.plus (.cls .digit)]] ++ lits "-" ++ [.group [.plus (.cls .digit)]] ++ lits " " ++ [.group [.plus (.cls .alpha)]] ++ lits " spell damage"⟩

/-- compiled pattern 66: `(\d+) to (\d+) added spell ([a-zA-Z]+) damage` -/
def pat66 : RPattern :=
  ⟨false, [.group [.plus (.cls .digit)]] ++ lits " to " ++ [.group [.plus (.cls .digit)]] ++ lits " added spell " ++ [.group [.plus (.cls .alpha)]] ++ lits " damage"⟩

/-- compiled pattern 67: `adds (\d+) to (\d+) ([a-zA-Z]+) damage to attacks and spells` -/
def pat67 : RPattern :=
  ⟨false, lits "adds " ++ [.group [.plus (.cls .digit)]] ++ lits " to " ++ [.group [.plus (.cls .digit)]] ++ lits " " ++ [.group [.plus (.cls .alpha)]] ++ lits " damage to attacks and spells"⟩

/-- compiled pattern 68: `adds (\d+)-(\d+) ([a-zA-Z]+) damage to attacks and spells` -/
def pat68 : RPattern :=
  ⟨false, lits "adds " ++ [.group [.plus (.cls .digit)]] ++ lits "-" ++ [.group [.plus (.cls .digit)]] ++ lits " " ++ [.group [.plus (.cls .alpha)]] ++ lits " damage to attacks and spells"⟩

/-- compiled pattern 69: `adds (\d+) to (\d+) ([a-zA-Z]+) damage to spells and attacks` -/
def pat69 : RPattern :=
  ⟨false, lits "adds " ++ [.group [.plus (.cls .digit)]] ++ lits " to " ++ [.group [.plus (.cls .digit)]] ++ lits " " ++ [.group [.plus (.cls .alpha)]] ++ lits " damage to spells and attacks"⟩

/-- compiled pattern 70: `adds (\d+)-(\d+) ([a-zA-Z]+) damage to spells and attacks` -/
def pat70 : RPattern :=
  ⟨false, lits "adds " ++ [.group [.plus (.cls .digit)]] ++ lits "-" ++ [.group [.plus (.cls .digit)]] ++ lits " " ++ [.group [.plus (.cls .alpha)]] ++ lits " damage to spells and attacks"⟩

/-- compiled pattern 71: `adds (\d+) to (\d+) ([a-zA-Z]+) damage to hits` -/
def pat71 : RPattern :=
  ⟨false, lits "adds " ++ [.group [.plus (.cls .digit)]] ++ lits " to " ++ [.group [.plus (.cls .digit)]] ++ lits " " ++ [.group [.plus (.cls .alpha)]] ++ lits " damage to hits"⟩

/-- compiled pattern 72: `adds (\d+)-(\d+) ([a-zA-Z]+) damage to hits` -/
def pat72 : RPattern :=
  ⟨false, lits "adds " ++ [.group [.plus (.cls .digit)]] ++ lits "-" ++ [.group [.plus (.cls .digit)]] ++ lits " " ++ [.group [.plus (.cls .alpha)]] ++ lits " damage to hits"⟩

/-- compiled pattern 73: `^you have ` -/
def pat73 : RPattern :=
  ⟨true, lits "you have "⟩

/-- compiled pattern 74: `^have ` -/
def pat74 : RPattern :=
  ⟨true, lits "have "⟩

/-- compiled pattern 75: `^you are ` -/
def pat75 : RPattern :=
  ⟨true, lits "you are "⟩

/-- compiled pattern 76: `^are ` -/
def pat76 : RPattern :=
  ⟨true, lits "are "⟩

/-- compiled pattern 77: `^gain ` -/
def pat77 : RPattern :=
  ⟨true, lits "gain "⟩

/-- compiled pattern 78: `^you gain ` -/
def pat78 : RPattern :=
  ⟨true, lits "you gain "⟩

/-- compiled pattern 79: `is (-?\d+)\? ` -/
def pat79 : RPattern :=
  ⟨false, lits "is " ++ [.group [.opt (.lit '-'), .plus (.cls .digit)]] ++ lits "? "⟩

/-- The manager built by `create_modifier_manager`: the compiled
patterns with their forms, in registration order. -/
def create_modifier_manager : List (RPattern × ModifierForm) :=
  [(pat0, .INCREASE), (pat1, .INCREASE), (pat2, .REDUCE), (pat3, .REDUCE), (pat4, .MORE),
   (pat5, .LESS), (pat6, .BASE), (pat7, .BASE), (pat8, .BASE), (pat9, .BASE), (pat10, .BASE),
   (pat11, .BASE), (pat12, .BASE), (pat13, .GAIN), (pat14, .GAIN), (pat15, .GAIN), (pat16,
   .GAIN), (pat17, .LOSE), (pat18, .LOSE), (pat19, .LOSE), (pat20, .LOSE), (pat21, .GRANTS),
   (pat22, .REMOVES), (pat23, .BASE), (pat24, .CHANCE), (pat25, .FLAG), (pat26, .CHANCE),
   (pat27, .TOTAL_COST), (pat28, .BASE_COST), (pat29, .PENETRATION), (pat30, .PENETRATION),
   (pat31, .PENETRATION), (pat32, .REGEN_FLAT), (pat33, .REGEN_PERCENT), (pat34,
   .REGEN_PERCENT), (pat35, .REGEN_FLAT), (pat36, .REGEN_PERCENT), (pat37, .REGEN_PERCENT),
   (pat38, .REGEN_PERCENT), (pat39, .REGEN_PERCENT), (pat40, .DEGEN_FLAT), (pat41,
   .DEGEN_PERCENT), (pat42, .DEGEN_PERCENT), (pat43, .DEGEN_FLAT), (pat44, .DEGEN_PERCENT),
   (pat45, .DEGEN_PERCENT), (pat46, .DEGEN_PERCENT), (pat47, .DEGEN_PERCENT), (pat48, .DEGEN),
   (pat49, .DEGEN), (pat50, .DAMAGE), (pat51, .DAMAGE), (pat52, .DAMAGE), (pat53, .DAMAGE),
   (pat54, .DAMAGE), (pat55, .DAMAGE), (pat56, .DAMAGE), (pat57, .DAMAGE_ATTACKS), (pat58,
   .DAMAGE_ATTACKS), (pat59, .DAMAGE_ATTACKS), (pat60, .DAMAGE_ATTACKS), (pat61,
   .DAMAGE_ATTACKS), (pat62, .DAMAGE_SPELLS), (pat63, .DAMAGE_SPELLS), (pat64,
   .DAMAGE_SPELLS), (pat65, .DAMAGE_SPELLS), (pat66, .DAMAGE_SPELLS), (pat67, .DAMAGE_BOTH),
   (pat68, .DAMAGE_BOTH), (pat69, .DAMAGE_BOTH), (pat70, .DAMAGE_BOTH), (pat71, .DAMAGE_BOTH),
   (pat72, .DAMAGE_BOTH), (pat73, .FLAG), (pat74, .FLAG), (pat75, .FLAG), (pat76, .FLAG),
   (pat77, .FLAG), (pat78, .FLAG), (pat79, .OVERRIDE)]

/-! Embedding of `src/pob1/constants/flags.py`: the ModFlag bit constants,
the structural checker `ModFlag.verify_weapon_flags` (a failing `assert`
raises `AssertionError`, embedded as `Except.error` with the assert's
message), and the scope predicate `match_keyword_flags`. -/

namespace ModFlag

def ATTACK : Nat := 0x00000001
def SPELL : Nat := 0x00000002
def HIT : Nat := 0x00000004
def DOT : Nat := 0x00000008
def CAST : Nat := 0x00000010
def MELEE : Nat := 0x00000100
def AREA : Nat := 0x00000200
def PROJECTILE : Nat := 0x00000400
def SOURCE_MASK : Nat := 0x00000600
def AILMENT : Nat := 0x00000800
def MELEE_HIT : Nat := 0x00001000
def WEAPON : Nat := 0x00002000
def AXE : Nat := 0x00010000
def BOW : Nat := 0x00020000
def CLAW : Nat := 0x00040000
def DAGGER : Nat := 0x00080000
def MACE : Nat := 0x00100000
def STAFF : Nat := 0x00200000
def SWORD : Nat := 0x00400000
def WAND : Nat := 0x00800000
def UNARMED : Nat := 0x01000000
def FISHING : Nat := 0x02000000
def WEAPON_MELEE : Nat := 0x04000000
def WEAPON_RANGED : Nat := 0x08000000
def WEAPON_1H : Nat := 0x10000000
def WEAPON_2H : Nat := 0x20000000
def WEAPON_MASK : Nat := 0x2FFF0000

/-- The `weapon_type_flags` value computed in verify_weapon_flags. -/
def weaponTypeFlags : Nat :=
  AXE ||| BOW ||| CLAW ||| DAGGER ||| MACE ||| STAFF ||| SWORD ||| WAND |||
    UNARMED ||| FISHING

/-- The `weapon_class_flags` value computed in verify_weapon_flags. -/
def weaponClassFlags : Nat :=
  WEAPON_MELEE ||| WEAPON_RANGED ||| WEAPON_1H ||| WEAPON_2H

/-- Model of `ModFlag.verify_weapon_flags`: the four sequential asserts, then
`return True`.  A Python flag value is truthy iff it is non-zero. -/
def verify_weapon_flags (flags : Nat) : Except String Bool :=
  if flags &&& WEAPON_MELEE != 0 && flags &&& WEAPON_RANGED != 0 then
    .error "Weapon cannot be both melee and ranged"
  else if flags &&& WEAPON_1H != 0 && flags &&& WEAPON_2H != 0 then
    .error "Weapon cannot be both one-handed and two-handed"
  else if flags &&& weaponTypeFlags != 0 && flags &&& WEAPON == 0 then
    .error "WEAPON flag must be set when weapon type is specified"
  else if flags &&& weaponClassFlags != 0 && flags &&& weaponTypeFlags == 0 then
    .error "Weapon type must be specified with weapon class"
  else .ok true

end ModFlag

namespace KeywordFlag

def MATCH_ALL : Nat := 0x40000000

end KeywordFlag

/-- Model of `x &= ~KeywordFlag.MATCH_ALL`: clear the MATCH_ALL bit of a keyword-flag
bitmask (flag values are combinations of the declared bits). -/
def clearMatchAll (n : Nat) : Nat :=
  if n.testBit 30 then n - 2 ^ 30 else n

/-- Model of `match_keyword_flags(keyword_flags, mod_keyword_flags)` from flags.py. -/
def match_keyword_flags (keywordFlags modKeywordFlags : Nat) : Bool :=
  let matchAll := modKeywordFlags &&& KeywordFlag.MATCH_ALL != 0
  let mkf := clearMatchAll modKeywordFlags
  let kf := clearMatchAll keywordFlags
  if matchAll then (kf &&& mkf) == mkf
  else mkf == 0 || (kf &&& mkf) != 0

/-! Embedding of `src/pob1/models/parser/modifier_name_model.py`:
`ModifierNameMap` declares exactly twelve category fields, every one a dict
defaulting to empty; `create_modifier_map` constructs it with twenty-nine
keyword groups.  Construction follows pydantic v2 BaseModel semantics with
the default `extra='ignore'` policy (the model sets no `extra`
configuration): keyword arguments whose names are not declared fields are
silently dropped, and declared fields that receive no argument get their
`default_factory` value (the empty dict).  Each dict entry is abbreviated
here to its phrase key and the stat identifier string(s) of its value;
the flag/tag scope metadata plays no role in the verified properties. -/

abbrev PhraseGroup := List (String × List String)

/-- The `ModifierNameMap` pydantic model: its twelve declared category
fields, in declaration order. -/
structure ModifierNameMap where
  attributes : PhraseGroup
  life_mana : PhraseGroup
  defences : PhraseGroup
  damage_taken : PhraseGroup
  resistances : PhraseGroup
  charges : PhraseGroup
  dot_effects : PhraseGroup
  skills : PhraseGroup
  buffs : PhraseGroup
  damage : PhraseGroup
  ailments : PhraseGroup
  flask : PhraseGroup
  deriving DecidableEq, Repr

/-- Model of pydantic keyword construction of `ModifierNameMap` under the default
`extra='ignore'` policy: each declared field takes the value of the keyword
with its name if present, the default empty dict otherwise; keywords with
any other name are discarded. -/
def ModifierNameMap.ofKwargs (kw : List (String × PhraseGroup)) :
    ModifierNameMap where
  attributes := (kw.lookup "attributes").getD []
  life_mana := (kw.lookup "life_mana").getD []
  defences := (kw.lookup "defences").getD []
  damage_taken := (kw.lookup "damage_taken").getD []
  resistances := (kw.lookup "resistances").getD []
  charges := (kw.lookup "charges").getD []
  dot_effects := (kw.lookup "dot_effects").getD []
  skills := (kw.lookup "skills").getD []
  buffs := (kw.lookup "buffs").getD []
  damage := (kw.lookup "damage").getD []
  ailments := (kw.lookup "ailments").getD []
  flask := (kw.lookup "flask").getD []
/-- the `attributes` keyword group passed to ModifierNameMap(...) in
create_modifier_map (each entry abbreviated to its phrase key and the
stat identifier strings of its value(s); scope metadata elided). -/
def grp_attributes : List (String × List String) :=
  [("strength", ["Str"]),
   ("dexterity", ["Dex"]),
   ("intelligence", ["Int"]),
   ("omniscience", ["Omni"]),
   ("strength and dexterity", ["Str", "Dex", "StrDex"]),
   ("strength and intelligence", ["Str", "Int", "StrInt"]),
   ("dexterity and intelligence", ["Dex", "Int", "DexInt"]),
   ("attributes", ["Str", "Dex", "Int", "All"]),
   ("all attributes", ["Str", "Dex", "Int", "All"]),
   ("devotion", ["Devotion"])]

/-- the `life_mana` keyword group passed to ModifierNameMap(...) in
create_modifier_map (each entry abbreviated to its phrase key and the
stat identifier strings of its value(s); scope metadata elided). -/
def grp_life_mana : List (String × List String) :=
  [("life", ["Life"]),
   ("maximum life", ["Life"]),
   ("life regeneration rate", ["LifeRegen"]),
   ("mana", ["Mana"]),
   ("maximum mana", ["Mana"]),
   ("mana regeneration", ["ManaRegen"]),
   ("mana regeneration rate", ["ManaRegen"]),
   ("mana cost", ["ManaCost"]),
   ("mana cost of", ["ManaCost"]),
   ("mana cost of skills", ["ManaCost"]),
   ("mana cost of attacks", ["ManaCost"]),
   ("total cost", ["Cost"]),
   ("total mana cost", ["ManaCost"]),
   ("total mana cost of skills", ["ManaCost"]),
   ("life cost of skills", ["LifeCost"]),
   ("rage cost of skills", ["RageCost"]),
   ("cost of", ["Cost"]),
   ("cost of skills", ["Cost"]),
   ("cost of attacks", ["Cost"]),
   ("cost of retaliation skills", ["Cost"]),
   ("mana reserved", ["ManaReserved"]),
   ("mana reservation", ["ManaReserved"]),
   ("mana reservation of skills", ["ManaReserved"]),
   ("mana reservation efficiency of skills", ["ManaReservationEfficiency"]),
   ("life reservation efficiency of skills", ["LifeReservationEfficiency"]),
   ("reservation of skills", ["Reserved"]),
   ("mana reservation if cast as an aura", ["ManaReserved"]),
   ("reservation if cast as an aura", ["Reserved"]),
   ("reservation", ["Reserved"]),
   ("reservation efficiency", ["ReservationEfficiency"]),
   ("reservation efficiency of skills", ["ReservationEfficiency"]),
   ("mana reservation efficiency", ["ManaReservationEfficiency"]),
   ("life reservation efficiency", ["LifeReservationEfficiency"]),
   ("life recovery rate", ["LifeRecoveryRate"]),
   ("mana recovery rate", ["ManaRecoveryRate"]),
   ("energy shield recovery rate", ["EnergyShieldRecoveryRate"]),
   ("recovery rate of life, mana and energy shield", ["LifeRecoveryRate", "ManaRecoveryRate", "EnergyShieldRecoveryRate"])]

/-- the `defences` keyword group passed to ModifierNameMap(...) in
create_modifier_map (each entry abbreviated to its phrase key and the
stat identifier strings of its value(s); scope metadata elided). -/
def grp_defences : List (String × List String) :=
  [("maximum energy shield", ["EnergyShield"]),
   ("energy shield recharge rate", ["EnergyShieldRecharge"]),
   ("start of energy shield recharge", ["EnergyShieldRechargeFaster"]),
   ("restoration of ward", ["WardRechargeFaster"]),
   ("armour", ["Armour"]),
   ("evasion", ["Evasion"]),
   ("evasion rating", ["Evasion"]),
   ("energy shield", ["EnergyShield"]),
   ("ward", ["Ward"]),
   ("armour and evasion", ["ArmourAndEvasion"]),
   ("armour and evasion rating", ["ArmourAndEvasion"]),
   ("evasion rating and armour", ["ArmourAndEvasion"]),
   ("armour and energy shield", ["ArmourAndEnergyShield"]),
   ("evasion rating and energy shield", ["EvasionAndEnergyShield"]),
   ("evasion and energy shield", ["EvasionAndEnergyShield"]),
   ("armour, evasion and energy shield", ["Defences"]),
   ("defences", ["Defences"]),
   ("to evade", ["EvadeChance"]),
   ("chance to evade", ["EvadeChance"]),
   ("to evade attacks", ["EvadeChance"]),
   ("to evade attack hits", ["EvadeChance"]),
   ("chance to evade attacks", ["EvadeChance"]),
   ("chance to evade attack hits", ["EvadeChance"]),
   ("chance to evade projectile attacks", ["ProjectileEvadeChance"]),
   ("chance to evade melee attacks", ["MeleeEvadeChance"]),
   ("evasion rating against melee attacks", ["MeleeEvasion"]),
   ("evasion rating against projectile attacks", ["ProjectileEvasion"]),
   ("to block", ["BlockChance"]),
   ("to block attacks", ["BlockChance"]),
   ("block chance", ["BlockChance"]),
   ("chance to block", ["BlockChance"]),
   ("block chance with staves", ["BlockChance"]),
   ("to block with staves", ["BlockChance"]),
   ("block chance against projectiles", ["ProjectileBlockChance"]),
   ("to block projectile attack damage", ["ProjectileBlockChance"]),
   ("spell block chance", ["SpellBlockChance"]),
   ("to block spells", ["SpellBlockChance"]),
   ("maximum block chance", ["BlockChanceMax"]),
   ("life gained when you block", ["LifeOnBlock"]),
   ("mana gained when you block", ["ManaOnBlock"]),
   ("energy shield when you block", ["EnergyShieldOnBlock"])]

/-- the `resistances` keyword group passed to ModifierNameMap(...) in
create_modifier_map (each entry abbreviated to its phrase key and the
stat identifier strings of its value(s); scope metadata elided). -/
def grp_resistances : List (String × List String) :=
  [("physical damage reduction", ["PhysicalDamageReduction"]),
   ("physical damage reduction from hits", ["PhysicalDamageReductionWhenHit"]),
   ("elemental damage reduction", ["ElementalDamageReduction"]),
   ("fire resistance", ["FireResist"]),
   ("maximum fire resistance", ["FireResistMax"]),
   ("cold resistance", ["ColdResist"]),
   ("maximum cold resistance", ["ColdResistMax"]),
   ("lightning resistance", ["LightningResist"]),
   ("maximum lightning resistance", ["LightningResistMax"]),
   ("chaos damage taken over time", ["ChaosDamageTakenOverTime"]),
   ("chaos damage over time taken", ["ChaosDamageTakenOverTime"]),
   ("elemental damage taken", ["ElementalDamageTaken"]),
   ("elemental damage from hits taken", ["ElementalDamageFromHitsTaken"]),
   ("elemental damage taken when hit", ["ElementalDamageTakenWhenHit"]),
   ("elemental damage taken from hits", ["ElementalDamageTakenWhenHit"]),
   ("elemental damage taken over time", ["ElementalDamageTakenOverTime"]),
   ("cold and lightning damage taken", ["ColdDamageTaken", "LightningDamageTaken"]),
   ("fire and lightning damage taken", ["FireDamageTaken", "LightningDamageTaken"]),
   ("fire and cold damage taken", ["FireDamageTaken", "ColdDamageTaken"]),
   ("physical and chaos damage taken", ["PhysicalDamageTaken", "ChaosDamageTaken"]),
   ("reflected elemental damage taken", ["ElementalReflectedDamageTaken"]),
   ("damage is taken from mana before life", ["DamageTakenFromManaBeforeLife"]),
   ("lightning damage is taken from mana before life", ["LightningDamageTakenFromManaBeforeLife"]),
   ("damage taken from mana before life", ["DamageTakenFromManaBeforeLife"]),
   ("chaos resistance", ["ChaosResist"]),
   ("maximum chaos resistance", ["ChaosResistMax"]),
   ("fire and cold resistances", ["FireResist", "ColdResist"]),
   ("fire and lightning resistances", ["FireResist", "LightningResist"]),
   ("cold and lightning resistances", ["ColdResist", "LightningResist"]),
   ("elemental resistance", ["ElementalResist"]),
   ("elemental resistances", ["ElementalResist"]),
   ("all elemental resistances", ["ElementalResist"]),
   ("all resistances", ["ElementalResist", "ChaosResist"]),
   ("all maximum elemental resistances", ["ElementalResistMax"]),
   ("all maximum resistances", ["ElementalResistMax", "ChaosResistMax"]),
   ("all elemental resistances and maximum elemental resistances", ["ElementalResist", "ElementalResistMax"]),
   ("fire and chaos resistances", ["FireResist", "ChaosResist"]),
   ("cold and chaos resistances", ["ColdResist", "ChaosResist"]),
   ("lightning and chaos resistances", ["LightningResist", "ChaosResist"])]

/-- the `charges` keyword group passed to ModifierNameMap(...) in
create_modifier_map (each entry abbreviated to its phrase key and the
stat identifier strings of its value(s); scope metadata elided). -/
def grp_charges : List (String × List String) :=
  [("maximum power charge", ["PowerChargesMax"]),
   ("maximum power charges", ["PowerChargesMax"]),
   ("minimum power charge", ["PowerChargesMin"]),
   ("minimum power charges", ["PowerChargesMin"]),
   ("power charge duration", ["PowerChargesDuration"]),
   ("maximum frenzy charge", ["FrenzyChargesMax"]),
   ("maximum frenzy charges", ["FrenzyChargesMax"]),
   ("minimum frenzy charge", ["FrenzyChargesMin"]),
   ("minimum frenzy charges", ["FrenzyChargesMin"]),
   ("frenzy charge duration", ["FrenzyChargesDuration"]),
   ("maximum endurance charge", ["EnduranceChargesMax"]),
   ("maximum endurance charges", ["EnduranceChargesMax"]),
   ("minimum endurance charge", ["EnduranceChargesMin"]),
   ("minimum endurance charges", ["EnduranceChargesMin"]),
   ("minimum endurance, frenzy and power charges", ["PowerChargesMin", "FrenzyChargesMin", "EnduranceChargesMin"]),
   ("endurance charge duration", ["EnduranceChargesDuration"]),
   ("maximum frenzy charges and maximum power charges", ["FrenzyChargesMax", "PowerChargesMax"]),
   ("maximum power charges and maximum endurance charges", ["PowerChargesMax", "EnduranceChargesMax"]),
   ("maximum endurance, frenzy and power charges", ["EnduranceChargesMax", "PowerChargesMax", "FrenzyChargesMax"]),
   ("endurance, frenzy and power charge duration", ["PowerChargesDuration", "FrenzyChargesDuration", "EnduranceChargesDuration"]),
   ("maximum siphoning charge", ["SiphoningChargesMax"]),
   ("maximum siphoning charges", ["SiphoningChargesMax"]),
   ("maximum challenger charges", ["ChallengerChargesMax"]),
   ("maximum blitz charges", ["BlitzChargesMax"]),
   ("maximum number of crab barriers", ["CrabBarriersMax"]),
   ("maximum blood charges", ["BloodChargesMax"]),
   ("maximum spirit charges", ["SpiritChargesMax"]),
   ("charge duration", ["ChargeDuration"])]

/-- the `dot_effects` keyword group passed to ModifierNameMap(...) in
create_modifier_map (each entry abbreviated to its phrase key and the
stat identifier strings of its value(s); scope metadata elided). -/
def grp_dot_effects : List (String × List String) :=
  [("damage over time", ["Damage"]),
   ("physical damage over time", ["PhysicalDamage"]),
   ("cold damage over time", ["ColdDamage"]),
   ("fire damage over time", ["FireDamage"]),
   ("chaos damage over time", ["ChaosDamage"]),
   ("physical damage over time multiplier", ["PhysicalDotMultiplier"]),
   ("fire damage over time multiplier", ["FireDotMultiplier"]),
   ("cold damage over time multiplier", ["ColdDotMultiplier"]),
   ("chaos damage over time multiplier", ["ChaosDotMultiplier"]),
   ("damage over time multiplier", ["DotMultiplier"])]

/-- the `skills` keyword group passed to ModifierNameMap(...) in
create_modifier_map (each entry abbreviated to its phrase key and the
stat identifier strings of its value(s); scope metadata elided). -/
def grp_skills : List (String × List String) :=
  [("radius", ["AreaOfEffect"]),
   ("radius of area skills", ["AreaOfEffect"]),
   ("area of effect radius", ["AreaOfEffect"]),
   ("area of effect", ["AreaOfEffect"]),
   ("area of effect of skills", ["AreaOfEffect"]),
   ("area of effect of area skills", ["AreaOfEffect"]),
   ("duration", ["Duration"]),
   ("skill effect duration", ["Duration"]),
   ("chaos skill effect duration", ["Duration"]),
   ("cooldown recovery", ["CooldownRecovery"]),
   ("cooldown recovery speed", ["CooldownRecovery"]),
   ("cooldown recovery rate", ["CooldownRecovery"]),
   ("weapon range", ["WeaponRange"]),
   ("melee range", ["MeleeWeaponRange"]),
   ("melee weapon range", ["MeleeWeaponRange"]),
   ("to deal double damage", ["DoubleDamageChance"]),
   ("to deal triple damage", ["TripleDamageChance"]),
   ("critical strike chance", ["CritChance"]),
   ("attack critical strike chance", ["CritChance"]),
   ("critical strike multiplier", ["CritMultiplier"]),
   ("attack critical strike multiplier", ["CritMultiplier"]),
   ("accuracy", ["Accuracy"]),
   ("accuracy rating", ["Accuracy"]),
   ("minion accuracy rating", ["Accuracy"]),
   ("attack speed", ["Speed"]),
   ("cast speed", ["Speed"]),
   ("attack and cast speed", ["Speed"]),
   ("metres to weapon range", ["WeaponRangeMetre"]),
   ("metre to melee strike range", ["MeleeWeaponRangeMetre", "UnarmedRangeMetre"]),
   ("projectile damage", ["Damage"]),
   ("projectile attack damage", ["Damage"])]

/-- the `leech` keyword group passed to ModifierNameMap(...) in
create_modifier_map (each entry abbreviated to its phrase key and the
stat identifier strings of its value(s); scope metadata elided). -/
def grp_leech : List (String × List String) :=
  [("damage as life", ["DamageLifeLeech"]),
   ("life leeched per second", ["LifeLeechRate"]),
   ("mana leeched per second", ["ManaLeechRate"]),
   ("total recovery per second from life leech", ["LifeLeechRate"]),
   ("recovery per second from life leech", ["LifeLeechRate"]),
   ("total recovery per second from energy shield leech", ["EnergyShieldLeechRate"]),
   ("recovery per second from energy shield leech", ["EnergyShieldLeechRate"]),
   ("total recovery per second from mana leech", ["ManaLeechRate"]),
   ("recovery per second from mana leech", ["ManaLeechRate"]),
   ("total recovery per second from life, mana, or energy shield leech", ["LifeLeechRate", "ManaLeechRate", "EnergyShieldLeechRate"]),
   ("maximum recovery per life leech", ["MaxLifeLeechInstance"]),
   ("maximum recovery per energy shield leech", ["MaxEnergyShieldLeechInstance"]),
   ("maximum recovery per mana leech", ["MaxManaLeechInstance"]),
   ("maximum total recovery per second from life leech", ["MaxLifeLeechRate"]),
   ("maximum total life recovery per second from leech", ["MaxLifeLeechRate"]),
   ("maximum total recovery per second from energy shield leech", ["MaxEnergyShieldLeechRate"]),
   ("maximum total energy shield recovery per second from leech", ["MaxEnergyShieldLeechRate"]),
   ("maximum total recovery per second from mana leech", ["MaxManaLeechRate"]),
   ("maximum total mana recovery per second from leech", ["MaxManaLeechRate"]),
   ("maximum total life, mana and energy shield recovery per second from leech", ["MaxLifeLeechRate", "MaxManaLeechRate", "MaxEnergyShieldLeechRate"]),
   ("life and mana leech is instant", ["InstantManaLeech", "InstantLifeLeech"]),
   ("life leech is instant", ["InstantLifeLeech"]),
   ("mana leech is instant", ["InstantManaLeech"]),
   ("energy shield leech is instant", ["InstantEnergyShieldLeech"]),
   ("leech is instant", ["InstantEnergyShieldLeech", "InstantManaLeech", "InstantLifeLeech"])]

/-- the `minions` keyword group passed to ModifierNameMap(...) in
create_modifier_map (each entry abbreviated to its phrase key and the
stat identifier strings of its value(s); scope metadata elided). -/
def grp_minions : List (String × List String) :=
  [("maximum number of skeletons", ["ActiveSkeletonLimit"]),
   ("maximum number of zombies", ["ActiveZombieLimit"]),
   ("maximum number of raised zombies", ["ActiveZombieLimit"]),
   ("number of zombies allowed", ["ActiveZombieLimit"]),
   ("maximum number of spectres", ["ActiveSpectreLimit"]),
   ("maximum number of golems", ["ActiveGolemLimit"]),
   ("maximum number of summoned golems", ["ActiveGolemLimit"]),
   ("maximum number of summoned raging spirits", ["ActiveRagingSpiritLimit"]),
   ("maximum number of raging spirits", ["ActiveRagingSpiritLimit"]),
   ("maximum number of summoned phantasms", ["ActivePhantasmLimit"]),
   ("maximum number of summoned holy relics", ["ActiveHolyRelicLimit"]),
   ("number of summoned arbalists", ["ActiveArbalistLimit"]),
   ("minion duration", ["Duration"])]

/-- the `on_hit` keyword group passed to ModifierNameMap(...) in
create_modifier_map (each entry abbreviated to its phrase key and the
stat identifier strings of its value(s); scope metadata elided). -/
def grp_on_hit : List (String × List String) :=
  [("life gained on kill", ["LifeOnKill"]),
   ("life per enemy killed", ["LifeOnKill"]),
   ("life on kill", ["LifeOnKill"]),
   ("life per enemy hit", ["LifeOnHit"]),
   ("life gained for each enemy hit", ["LifeOnHit"]),
   ("mana gained on kill", ["ManaOnKill"]),
   ("mana per enemy killed", ["ManaOnKill"]),
   ("mana on kill", ["ManaOnKill"]),
   ("mana per enemy hit", ["ManaOnHit"]),
   ("mana gained for each enemy hit", ["ManaOnHit"]),
   ("energy shield gained on kill", ["EnergyShieldOnKill"]),
   ("energy shield per enemy killed", ["EnergyShieldOnKill"]),
   ("energy shield on kill", ["EnergyShieldOnKill"]),
   ("energy shield per enemy hit", ["EnergyShieldOnHit"]),
   ("energy shield gained for each enemy hit", ["EnergyShieldOnHit"])]

/-- the `curses` keyword group passed to ModifierNameMap(...) in
create_modifier_map (each entry abbreviated to its phrase key and the
stat identifier strings of its value(s); scope metadata elided). -/
def grp_curses : List (String × List String) :=
  [("effect of your curses", ["CurseEffect"]),
   ("effect of curses on you", ["CurseEffectOnSelf"]),
   ("effect of curses on them", ["CurseEffectOnSelf"]),
   ("curse effect", ["CurseEffect"]),
   ("curse duration", ["Duration"]),
   ("effect of curses applied by bane", ["CurseEffect"]),
   ("radius of curses", ["AreaOfEffect"])]

/-- the `ailments` keyword group passed to ModifierNameMap(...) in
create_modifier_map (each entry abbreviated to its phrase key and the
stat identifier strings of its value(s); scope metadata elided). -/
def grp_ailments : List (String × List String) :=
  [("to shock", ["EnemyShockChance"]),
   ("shock chance", ["EnemyShockChance"]),
   ("to freeze", ["EnemyFreezeChance"]),
   ("freeze chance", ["EnemyFreezeChance"]),
   ("to ignite", ["EnemyIgniteChance"]),
   ("ignite chance", ["EnemyIgniteChance"]),
   ("to freeze, shock and ignite", ["EnemyFreezeChance", "EnemyShockChance", "EnemyIgniteChance"]),
   ("effect of shock", ["EnemyShockEffect"]),
   ("effect of shock on you", ["SelfShockEffect"]),
   ("effect of shock you inflict", ["EnemyShockEffect"]),
   ("effect of shocks you inflict", ["EnemyShockEffect"]),
   ("effect of chill", ["EnemyChillEffect"]),
   ("effect of chill on you", ["SelfChillEffect"]),
   ("effect of chill you inflict", ["EnemyChillEffect"]),
   ("shock duration", ["EnemyShockDuration"]),
   ("freeze duration", ["EnemyFreezeDuration"]),
   ("chill duration", ["EnemyChillDuration"]),
   ("ignite duration", ["EnemyIgniteDuration"]),
   ("duration of elemental ailments", ["EnemyElementalAilmentDuration"]),
   ("effect of non-damaging ailments", ["EnemyShockEffect", "EnemyChillEffect", "EnemyFreezeEffect", "EnemyScorchEffect", "EnemyBrittleEffect", "EnemySapEffect"])]

/-- the `flask` keyword group passed to ModifierNameMap(...) in
create_modifier_map (each entry abbreviated to its phrase key and the
stat identifier strings of its value(s); scope metadata elided). -/
def grp_flask : List (String × List String) :=
  [("effect", ["LocalEffect"]),
   ("effect of flasks", ["FlaskEffect"]),
   ("effect of tinctures", ["TinctureEffect"]),
   ("amount recovered", ["FlaskRecovery"]),
   ("life recovered", ["FlaskRecovery"]),
   ("life recovery from flasks used", ["FlaskLifeRecovery"]),
   ("recovery", ["FlaskLifeRecoveryLowLife"]),
   ("mana recovered", ["FlaskRecovery"]),
   ("flask effect duration", ["FlaskDuration"]),
   ("recovery speed", ["FlaskRecoveryRate"]),
   ("recovery rate", ["FlaskRecoveryRate"]),
   ("flask recovery rate", ["FlaskRecoveryRate"]),
   ("flask recovery speed", ["FlaskRecoveryRate"]),
   ("flask life recovery rate", ["FlaskLifeRecoveryRate"]),
   ("flask mana recovery rate", ["FlaskManaRecoveryRate"]),
   ("extra charges", ["FlaskCharges"]),
   ("maximum charges", ["FlaskCharges"]),
   ("charges used", ["FlaskChargesUsed"]),
   ("charges per use", ["FlaskChargesUsed"]),
   ("flask charges used", ["FlaskChargesUsed"]),
   ("flask charges gained", ["FlaskChargesGained"]),
   ("charge recovery", ["FlaskChargeRecovery"]),
   ("for flasks you use to not consume charges", ["FlaskChanceNotConsumeCharges"]),
   ("for tinctures to not inflict mana burn", ["TincturesNotInflictManaBurn"]),
   ("mana burn rate", ["TinctureManaBurnRate"])]

/-- the `traps_mines` keyword group passed to ModifierNameMap(...) in
create_modifier_map (each entry abbreviated to its phrase key and the
stat identifier strings of its value(s); scope metadata elided). -/
def grp_traps_mines : List (String × List String) :=
  [("trap throwing speed", ["TrapThrowingSpeed"]),
   ("trap and mine throwing speed", ["TrapThrowingSpeed", "MineLayingSpeed"]),
   ("trap trigger area of effect", ["TrapTriggerAreaOfEffect"]),
   ("trap duration", ["TrapDuration"]),
   ("cooldown recovery speed for throwing traps", ["CooldownRecovery"]),
   ("cooldown recovery rate for throwing traps", ["CooldownRecovery"]),
   ("additional trap", ["TrapThrowCount"]),
   ("additional traps", ["TrapThrowCount"]),
   ("mine laying speed", ["MineLayingSpeed"]),
   ("mine throwing speed", ["MineLayingSpeed"]),
   ("mine detonation area of effect", ["MineDetonationAreaOfEffect"]),
   ("mine duration", ["MineDuration"]),
   ("additional mine", ["MineThrowCount"]),
   ("additional mines", ["MineThrowCount"])]

/-- the `miscellaneous` keyword group passed to ModifierNameMap(...) in
create_modifier_map (each entry abbreviated to its phrase key and the
stat identifier strings of its value(s); scope metadata elided). -/
def grp_miscellaneous : List (String × List String) :=
  [("movement speed", ["MovementSpeed"]),
   ("attack, cast and movement speed", ["Speed", "MovementSpeed"]),
   ("action speed", ["ActionSpeed"]),
   ("light radius", ["LightRadius"]),
   ("rarity of items found", ["LootRarity"]),
   ("rarity of items dropped", ["LootRarity"]),
   ("quantity of items found", ["LootQuantity"]),
   ("quantity of items dropped", ["LootQuantity"]),
   ("item quantity", ["LootQuantity"]),
   ("strength requirement", ["StrRequirement"]),
   ("dexterity requirement", ["DexRequirement"]),
   ("intelligence requirement", ["IntRequirement"]),
   ("omni requirement", ["OmniRequirement"]),
   ("strength and intelligence requirement", ["StrRequirement", "IntRequirement"]),
   ("attribute requirements", ["StrRequirement", "DexRequirement", "IntRequirement"]),
   ("effect of socketed jewels", ["SocketedJewelEffect"]),
   ("effect of socketed abyss jewels", ["SocketedJewelEffect"])]

/-- the `condition_flags` keyword group passed to ModifierNameMap(...) in
create_modifier_map (each entry abbreviated to its phrase key and the
stat identifier strings of its value(s); scope metadata elided). -/
def grp_condition_flags : List (String × List String) :=
  [("adrenaline", ["Condition:Adrenaline"]),
   ("elusive", ["Condition:CanBeElusive"]),
   ("onslaught", ["Condition:Onslaught"]),
   ("rampage", ["Condition:Rampage"]),
   ("soul eater", ["Condition:CanHaveSoulEater"]),
   ("phasing", ["Condition:Phasing"]),
   ("arcane surge", ["Condition:ArcaneSurge"]),
   ("unholy might", ["Condition:UnholyMight", "Condition:CanWither"]),
   ("chaotic might", ["Condition:ChaoticMight"]),
   ("lesser brutal shrine buff", ["Condition:LesserBrutalShrine"]),
   ("lesser massive shrine buff", ["Condition:LesserMassiveShrine"]),
   ("diamond shrine buff", ["Condition:DiamondShrine"]),
   ("massive shrine buff", ["Condition:MassiveShrine"])]

/-- the `damage_taken` keyword group passed to ModifierNameMap(...) in
create_modifier_map (each entry abbreviated to its phrase key and the
stat identifier strings of its value(s); scope metadata elided). -/
def grp_damage_taken : List (String × List String) :=
  [("damage taken", ["DamageTaken"]),
   ("damage taken when hit", ["DamageTakenWhenHit"]),
   ("damage taken from hits", ["DamageTakenWhenHit"]),
   ("damage over time taken", ["DamageTakenOverTime"]),
   ("damage taken from damage over time", ["DamageTakenOverTime"]),
   ("attack damage taken", ["AttackDamageTaken"]),
   ("spell damage taken", ["SpellDamageTaken"]),
   ("physical damage taken from attacks", ["PhysicalDamageTakenFromAttacks"]),
   ("physical damage taken from attack hits", ["PhysicalDamageTakenFromAttacks"]),
   ("physical damage taken from projectile attacks", ["PhysicalDamageTakenFromProjectileAttacks"]),
   ("physical damage taken from projectile attack hits", ["PhysicalDamageTakenFromProjectileAttacks"]),
   ("fire, cold and lightning damage taken from spell hits", ["FireDamageTakenFromSpells", "ColdDamageTakenFromSpells", "LightningDamageTakenFromSpells"]),
   ("reflected physical damage taken", ["PhysicalReflectedDamageTaken"]),
   ("non-chaos damage taken bypasses energy shield", ["PhysicalEnergyShieldBypass", "LightningEnergyShieldBypass", "ColdEnergyShieldBypass", "FireEnergyShieldBypass"])]

/-- the `dodge` keyword group passed to ModifierNameMap(...) in
create_modifier_map (each entry abbreviated to its phrase key and the
stat identifier strings of its value(s); scope metadata elided). -/
def grp_dodge : List (String × List String) :=
  [("to dodge attacks", ["AttackDodgeChance"]),
   ("to dodge attack hits", ["AttackDodgeChance"]),
   ("to dodge spells", ["SpellDodgeChance"]),
   ("to dodge spell hits", ["SpellDodgeChance"]),
   ("to dodge spell damage", ["SpellDodgeChance"]),
   ("to dodge attacks and spells", ["AttackDodgeChance", "SpellDodgeChance"]),
   ("to dodge attacks and spell damage", ["AttackDodgeChance", "SpellDodgeChance"]),
   ("to dodge attack and spell hits", ["AttackDodgeChance", "SpellDodgeChance"]),
   ("maximum chance to dodge spell hits", ["SpellDodgeChanceMax"])]

/-- the `avoid` keyword group passed to ModifierNameMap(...) in
create_modifier_map (each entry abbreviated to its phrase key and the
stat identifier strings of its value(s); scope metadata elided). -/
def grp_avoid : List (String × List String) :=
  [("to avoid physical damage from hits", ["AvoidPhysicalDamageChance"]),
   ("to avoid fire damage when hit", ["AvoidFireDamageChance"]),
   ("to avoid fire damage from hits", ["AvoidFireDamageChance"]),
   ("to avoid cold damage when hit", ["AvoidColdDamageChance"]),
   ("to avoid cold damage from hits", ["AvoidColdDamageChance"]),
   ("to avoid lightning damage when hit", ["AvoidLightningDamageChance"]),
   ("to avoid lightning damage from hits", ["AvoidLightningDamageChance"]),
   ("to avoid elemental damage when hit", ["AvoidFireDamageChance", "AvoidColdDamageChance", "AvoidLightningDamageChance"]),
   ("to avoid elemental damage from hits", ["AvoidFireDamageChance", "AvoidColdDamageChance", "AvoidLightningDamageChance"]),
   ("to avoid projectiles", ["AvoidProjectilesChance"]),
   ("to avoid being stunned", ["AvoidStun"]),
   ("to avoid interruption from stuns while casting", ["AvoidInterruptStun"]),
   ("to ignore stuns while casting", ["AvoidInterruptStun"]),
   ("to avoid being shocked", ["AvoidShock"]),
   ("to avoid being frozen", ["AvoidFreeze"]),
   ("to avoid being chilled", ["AvoidChill"]),
   ("to avoid being ignited", ["AvoidIgnite"]),
   ("to avoid blind", ["AvoidBlind"]),
   ("to avoid elemental ailments", ["AvoidElementalAilments"]),
   ("to avoid elemental status ailments", ["AvoidElementalAilments"]),
   ("to avoid ailments", ["AvoidAilments"]),
   ("to avoid status ailments", ["AvoidAilments"]),
   ("to avoid bleeding", ["AvoidBleed"]),
   ("to avoid being poisoned", ["AvoidPoison"]),
   ("to avoid being impaled", ["AvoidImpale"])]

/-- the `rage_and_fortification` keyword group passed to ModifierNameMap(...) in
create_modifier_map (each entry abbreviated to its phrase key and the
stat identifier strings of its value(s); scope metadata elided). -/
def grp_rage_and_fortification : List (String × List String) :=
  [("maximum rage", ["MaximumRage"]),
   ("minimum rage", ["MinimumRage"]),
   ("rage effect", ["RageEffect"]),
   ("maximum fortification", ["MaximumFortification"]),
   ("fortification", ["MinimumFortification"]),
   ("maximum valour", ["MaximumValour"])]

/-- the `poison_and_bleed` keyword group passed to ModifierNameMap(...) in
create_modifier_map (each entry abbreviated to its phrase key and the
stat identifier strings of its value(s); scope metadata elided). -/
def grp_poison_and_bleed : List (String × List String) :=
  [("to poison", ["PoisonChance"]),
   ("to cause poison", ["PoisonChance"]),
   ("to poison on hit", ["PoisonChance"]),
   ("poison duration", ["EnemyPoisonDuration"]),
   ("to cause bleeding", ["BleedChance"]),
   ("to cause bleeding on hit", ["BleedChance"]),
   ("to inflict bleeding", ["BleedChance"]),
   ("to inflict bleeding on hit", ["BleedChance"]),
   ("to bleed", ["BleedChance"]),
   ("bleed duration", ["EnemyBleedDuration"]),
   ("bleeding duration", ["EnemyBleedDuration"])]

/-- the `exposure` keyword group passed to ModifierNameMap(...) in
create_modifier_map (each entry abbreviated to its phrase key and the
stat identifier strings of its value(s); scope metadata elided). -/
def grp_exposure : List (String × List String) :=
  [("to inflict fire exposure on hit", ["FireExposureChance"]),
   ("to apply fire exposure on hit", ["FireExposureChance"]),
   ("to inflict cold exposure on hit", ["ColdExposureChance"]),
   ("to apply cold exposure on hit", ["ColdExposureChance"]),
   ("to inflict lightning exposure on hit", ["LightningExposureChance"]),
   ("to apply lightning exposure on hit", ["LightningExposureChance"])]

/-- the `recovery` keyword group passed to ModifierNameMap(...) in
create_modifier_map (each entry abbreviated to its phrase key and the
stat identifier strings of its value(s); scope metadata elided). -/
def grp_recovery : List (String × List String) :=
  [("life recovery from flasks", ["FlaskLifeRecovery"]),
   ("mana recovery from flasks", ["FlaskManaRecovery"]),
   ("life and mana recovery from flasks", ["FlaskLifeRecovery", "FlaskManaRecovery"])]

/-- the `aura_effects` keyword group passed to ModifierNameMap(...) in
create_modifier_map (each entry abbreviated to its phrase key and the
stat identifier strings of its value(s); scope metadata elided). -/
def grp_aura_effects : List (String × List String) :=
  [("aura effect", ["AuraEffect"]),
   ("effect of non-curse auras you cast", ["AuraEffect"]),
   ("effect of non-curse auras from your skills", ["AuraEffect"]),
   ("effect of auras on you", ["AuraEffectOnSelf"]),
   ("effect of arcane surge on you", ["ArcaneSurgeEffect"]),
   ("effect of buffs on you", ["BuffEffectOnSelf"]),
   ("effect of buffs granted by your golems", ["BuffEffect"]),
   ("effect of offering spells", ["BuffEffect"]),
   ("effect of offerings", ["BuffEffect"]),
   ("effect of heralds on you", ["BuffEffect"]),
   ("effect of herald buffs on you", ["BuffEffect"]),
   ("effect of shrine buffs on you", ["ShrineBuffEffect"]),
   ("radius of auras", ["AreaOfEffect"]),
   ("effect of withered", ["WitherEffect"]),
   ("effect of withered on you", ["WitherEffectOnSelf"])]

/-- the `duration_effects` keyword group passed to ModifierNameMap(...) in
create_modifier_map (each entry abbreviated to its phrase key and the
stat identifier strings of its value(s); scope metadata elided). -/
def grp_duration_effects : List (String × List String) :=
  [("soul gain prevention duration", ["SoulGainPreventionDuration"]),
   ("sentinel of absolution duration", ["SecondaryDuration"]),
   ("warcry speed", ["WarcrySpeed"]),
   ("fire trap burning ground duration", ["Duration"]),
   ("aspect of the spider debuff duration", ["Duration"])]

/-- the `brands` keyword group passed to ModifierNameMap(...) in
create_modifier_map (each entry abbreviated to its phrase key and the
stat identifier strings of its value(s); scope metadata elided). -/
def grp_brands : List (String × List String) :=
  [("activation frequency", ["BrandActivationFrequency"]),
   ("brand activation frequency", ["BrandActivationFrequency"]),
   ("brand attachment range", ["BrandAttachmentRange"])]

/-- the `weapon_specifics` keyword group passed to ModifierNameMap(...) in
create_modifier_map (each entry abbreviated to its phrase key and the
stat identifier strings of its value(s); scope metadata elided). -/
def grp_weapon_specifics : List (String × List String) :=
  [("bow damage", ["Damage"]),
   ("damage with arrow hits", ["Damage"]),
   ("wand damage", ["Damage"]),
   ("wand physical damage", ["PhysicalDamage"]),
   ("claw physical damage", ["PhysicalDamage"]),
   ("sword physical damage", ["PhysicalDamage"])]

/-- the `suppression_and_recoup` keyword group passed to ModifierNameMap(...) in
create_modifier_map (each entry abbreviated to its phrase key and the
stat identifier strings of its value(s); scope metadata elided). -/
def grp_suppression_and_recoup : List (String × List String) :=
  [("to suppress spell damage", ["SpellSuppressionChance"]),
   ("amount of suppressed spell damage prevented", ["SpellSuppressionEffect"]),
   ("damage taken recouped as life", ["LifeRecoup"]),
   ("physical damage taken recouped as life", ["PhysicalLifeRecoup"]),
   ("lightning damage taken recouped as life", ["LightningLifeRecoup"]),
   ("cold damage taken recouped as life", ["ColdLifeRecoup"]),
   ("fire damage taken recouped as life", ["FireLifeRecoup"]),
   ("chaos damage taken recouped as life", ["ChaosLifeRecoup"])]

/-- the `impale_effects` keyword group passed to ModifierNameMap(...) in
create_modifier_map (each entry abbreviated to its phrase key and the
stat identifier strings of its value(s); scope metadata elided). -/
def grp_impale_effects : List (String × List String) :=
  [("to impale enemies on hit", ["ImpaleChance"]),
   ("to impale on spell hit", ["ImpaleChance"]),
   ("impale effect", ["ImpaleEffect"]),
   ("effect of impales you inflict", ["ImpaleEffect"]),
   ("effects of impale inflicted", ["ImpaleEffect"]),
   ("effect of impales inflicted", ["ImpaleEffect"]),
   ("impales you inflict last", ["ImpaleStacksMax"])]

/-- The full keyword-argument list of the `ModifierNameMap(...)` call in
`create_modifier_map`, in source order. -/
def createMapKwargs : List (String × List (String × List String)) :=
  [("attributes", grp_attributes), ("life_mana", grp_life_mana), ("defences", grp_defences),
   ("resistances", grp_resistances), ("charges", grp_charges), ("dot_effects",
   grp_dot_effects), ("skills", grp_skills), ("leech", grp_leech), ("minions", grp_minions),
   ("on_hit", grp_on_hit), ("curses", grp_curses), ("ailments", grp_ailments), ("flask",
   grp_flask), ("traps_mines", grp_traps_mines), ("miscellaneous", grp_miscellaneous),
   ("condition_flags", grp_condition_flags), ("damage_taken", grp_damage_taken), ("dodge",
   grp_dodge), ("avoid", grp_avoid), ("rage_and_fortification", grp_rage_and_fortification),
   ("poison_and_bleed", grp_poison_and_bleed), ("exposure", grp_exposure), ("recovery",
   grp_recovery), ("aura_effects", grp_aura_effects), ("duration_effects",
   grp_duration_effects), ("brands", grp_brands), ("weapon_specifics",
   grp_weapon_specifics), ("suppression_and_recoup", grp_suppression_and_recoup),
   ("impale_effects", grp_impale_effects)]

/-- Model of `create_modifier_map()`: the `ModifierNameMap(...)` call with all
twenty-nine keyword groups. -/
def create_modifier_map : ModifierNameMap :=
  ModifierNameMap.ofKwargs createMapKwargs

/-! Relational semantics of the matcher, and its soundness: whenever the
backtracking matcher succeeds, the consumed prefix of the input is derivable
by the consumption relation.  This is what lets concrete evaluation results
be lifted to facts about all inputs (e.g. that a pattern whose items contain
a mandatory literal can only match text containing that character). -/

/-- Relation `SConsumes it u`: the quantified atom `it` can consume exactly the
character list `u`. -/
inductive SConsumes : SItem → List Char → Prop where
  | one {a : RAtom} {c : Char} : a.mem c = true → SConsumes (.one a) [c]
  | optOne {a : RAtom} {c : Char} : a.mem c = true → SConsumes (.opt a) [c]
  | optNone {a : RAtom} : SConsumes (.opt a) []
  | plusOne {a : RAtom} {c : Char} : a.mem c = true → SConsumes (.plus a) [c]
  | plusCons {a : RAtom} {c : Char} {l : List Char} :
      a.mem c = true → SConsumes (.plus a) l → SConsumes (.plus a) (c :: l)

/-- Relation `SeqConsumes g u`: the item sequence `g` (a group body) can consume
exactly `u`. -/
inductive SeqConsumes : List SItem → List Char → Prop where
  | nil : SeqConsumes [] []
  | cons {it : SItem} {its : List SItem} {u v : List Char} :
      SConsumes it u → SeqConsumes its v → SeqConsumes (it :: its) (u ++ v)

/-- Relation `TConsumes ts u`: the top-level item list `ts` can consume exactly `u`. -/
inductive TConsumes : List TItem → List Char → Prop where
  | nil : TConsumes [] []
  | plain {s : SItem} {ts : List TItem} {u v : List Char} :
      SConsumes s u → TConsumes ts v → TConsumes (.plain s :: ts) (u ++ v)
  | group {g : List SItem} {ts : List TItem} {u v : List Char} :
      SeqConsumes g u → TConsumes ts v → TConsumes (.group g :: ts) (u ++ v)

theorem firstSome_eq_some {α : Type} :
    ∀ (ns : List Nat) (f : Nat → Option α) (r : α),
      firstSome ns f = some r → ∃ n, n ∈ ns ∧ f n = some r := by
  intro ns
  induction ns with
  | nil => intro f r h; simp [firstSome] at h
  | cons n ns ih =>
      intro f r h
      unfold firstSome at h
      cases hf : f n with
      | some r' =>
          rw [hf] at h
          exact ⟨n, List.mem_cons_self n ns, by rw [hf]; exact h⟩
      | none =>
          rw [hf] at h
          obtain ⟨m, hm, hfm⟩ := ih f r h
          exact ⟨m, List.mem_cons_of_mem n hm, hfm⟩

theorem runLen_le (a : RAtom) : ∀ cs : List Char, runLen a cs ≤ cs.length := by
  intro cs
  induction cs with
  | nil => simp [runLen]
  | cons c cs ih =>
      simp only [runLen, List.length_cons]
      by_cases hm : a.mem c
      · simp [hm]; omega
      · simp [hm]

theorem all_take_of_le_runLen (a : RAtom) :
    ∀ (cs : List Char) (n : Nat), n ≤ runLen a cs →
      (List.take n cs).all a.mem = true := by
  intro cs
  induction cs with
  | nil =>
      intro n hn
      simp [runLen] at hn
      simp [hn]
  | cons c cs ih =>
      intro n hn
      simp only [runLen] at hn
      by_cases hm : a.mem c
      · rw [if_pos hm] at hn
        cases n with
        | zero => simp
        | succ k =>
            simp only [List.take_succ_cons, List.all_cons, hm, Bool.true_and]
            exact ih k (Nat.le_of_succ_le_succ hn)
      · rw [if_neg hm] at hn
        interval_cases n
        simp

theorem sconsumes_plus_of_all (a : RAtom) :
    ∀ (l : List Char), l ≠ [] → l.all a.mem = true →
      SConsumes (.plus a) l := by
  intro l
  induction l with
  | nil => intro h; exact absurd rfl h
  | cons c l ih =>
      intro _ hall
      simp only [List.all_cons, Bool.and_eq_true] at hall
      cases l with
      | nil => exact SConsumes.plusOne hall.1
      | cons d l' => exact SConsumes.plusCons hall.1 (ih (by simp) hall.2)

theorem cands_sconsumes (it : SItem) (cs : List Char) (n : Nat)
    (hn : n ∈ it.cands cs) : SConsumes it (cs.take n) ∧ n ≤ cs.length := by
  cases it with
  | one a =>
      cases cs with
      | nil => simp [SItem.cands] at hn
      | cons c cs' =>
          by_cases hm : a.mem c
          · simp [SItem.cands, hm] at hn
            subst hn
            exact ⟨SConsumes.one hm, by simp⟩
          · simp [SItem.cands, hm] at hn
  | opt a =>
      cases cs with
      | nil =>
          simp [SItem.cands] at hn
          subst hn
          exact ⟨SConsumes.optNone, by simp⟩
      | cons c cs' =>
          by_cases hm : a.mem c
          · simp [SItem.cands, hm] at hn
            rcases hn with h1 | h0
            · subst h1; exact ⟨SConsumes.optOne hm, by simp⟩
            · subst h0; exact ⟨SConsumes.optNone, by simp⟩
          · simp [SItem.cands, hm] at hn
            subst hn
            exact ⟨SConsumes.optNone, by simp⟩
  | plus a =>
      simp only [SItem.cands, List.mem_map, List.mem_range] at hn
      obtain ⟨i, hi, rfl⟩ := hn
      have h1 : 1 ≤ runLen a cs - i := by omega
      have h2 : runLen a cs - i ≤ runLen a cs := Nat.sub_le _ _
      have hlen : runLen a cs - i ≤ cs.length := le_trans h2 (runLen_le a cs)
      refine ⟨sconsumes_plus_of_all a _ ?_ (all_take_of_le_runLen a cs _ h2), hlen⟩
      intro hemp
      have : (List.take (runLen a cs - i) cs).length = 0 := by rw [hemp]; rfl
      rw [List.length_take] at this
      omega

theorem seqCands_consumes :
    ∀ (g : List SItem) (cs : List Char) (n : Nat),
      n ∈ seqCands g cs → SeqConsumes g (cs.take n) ∧ n ≤ cs.length := by
  intro g
  induction g with
  | nil =>
      intro cs n hn
      simp [seqCands] at hn
      subst hn
      exact ⟨SeqConsumes.nil, by simp⟩
  | cons it g' ih =>
      intro cs n hn
      simp only [seqCands, List.mem_flatMap, List.mem_map] at hn
      obtain ⟨n1, hn1, k, hk, rfl⟩ := hn
      obtain ⟨hc1, hl1⟩ := cands_sconsumes it cs n1 hn1
      obtain ⟨hc2, hl2⟩ := ih (List.drop n1 cs) k hk
      rw [List.length_drop] at hl2
      constructor
      · rw [List.take_add]
        exact SeqConsumes.cons hc1 hc2
      · omega

theorem matchTs_sound :
    ∀ (items : List TItem) (cs : List Char) (caps r : List String),
      matchTs items cs caps = some r →
      ∃ u v, cs = u ++ v ∧ TConsumes items u := by
  intro items
  induction items with
  | nil => intro cs caps r _; exact ⟨[], cs, rfl, TConsumes.nil⟩
  | cons hd tl ih =>
      intro cs caps r h
      cases hd with
      | plain it =>
          unfold matchTs at h
          obtain ⟨n, hn, hf⟩ := firstSome_eq_some _ _ _ h
          obtain ⟨hcon, _⟩ := cands_sconsumes it cs n hn
          obtain ⟨u, v, hev, htc⟩ := ih _ _ _ hf
          refine ⟨cs.take n ++ u, v, ?_, TConsumes.plain hcon htc⟩
          rw [List.append_assoc, ← hev, List.take_append_drop]
      | group g =>
          unfold matchTs at h
          obtain ⟨n, hn, hf⟩ := firstSome_eq_some _ _ _ h
          obtain ⟨hcon, _⟩ := seqCands_consumes g cs n hn
          obtain ⟨u, v, hev, htc⟩ := ih _ _ _ hf
          refine ⟨cs.take n ++ u, v, ?_, TConsumes.group hcon htc⟩
          rw [List.append_assoc, ← hev, List.take_append_drop]

theorem tconsumes_lit_mem {c : Char} :
    ∀ {ts : List TItem} {u : List Char}, TConsumes ts u →
      TItem.plain (SItem.one (RAtom.lit c)) ∈ ts → c ∈ u := by
  intro ts u h
  induction h with
  | nil => intro hm; simp at hm
  | @plain s ts' u1 v hs _ ih =>
      intro hm
      rcases List.mem_cons.mp hm with heq | hmem
      · have hseq : s = SItem.one (RAtom.lit c) := by
          injection heq.symm
        subst hseq
        cases hs with
        | @one _ c' hmem' =>
            have : c = c' := by
              have := hmem'
              simp [RAtom.mem] at this
              exact this
            subst this
            exact List.mem_append.mpr (Or.inl (List.mem_singleton.mpr rfl))
      · exact List.mem_append.mpr (Or.inr (ih hmem))
  | @group g ts' u1 v _ _ ih =>
      intro hm
      rcases List.mem_cons.mp hm with heq | hmem
      · exact absurd heq.symm (by simp)
      · exact List.mem_append.mpr (Or.inr (ih hmem))

/-- A pattern one of whose top-level items is a mandatory literal `c` can
only match text containing `c`. -/
theorem patMatch_requires_lit {p : RPattern} {c : Char}
    (hc : TItem.plain (SItem.one (RAtom.lit c)) ∈ p.items) {t : String}
    {r : List String} (h : patMatch p t = some r) : c ∈ t.data := by
  obtain ⟨u, v, hev, htc⟩ := matchTs_sound p.items t.data [] r h
  rw [hev]
  exact List.mem_append.mpr (Or.inl (tconsumes_lit_mem htc hc))

/-! Helper lemmas about `parseModifier`'s scan: a pattern whose match is
falsy (no regex match, or an empty capture list) is skipped; the first
pattern with a truthy match decides the outcome, whatever follows it. -/

theorem parseModifier_skip (q : RPattern × ModifierForm)
    (rest : List (RPattern × ModifierForm)) (t : String)
    (hq : truthy (patMatch q.1 t) = false) :
    parseModifier (q :: rest) t = parseModifier rest t := by
  obtain ⟨qp, qf⟩ := q
  simp only at hq
  cases hm : patMatch qp t with
  | none => simp [parseModifier, hm]
  | some caps =>
      have hemp : caps.isEmpty = true := by
        rw [hm] at hq
        simpa [truthy] using hq
      simp [parseModifier, hm, hemp]

theorem parseModifier_cons_truthy (p : RPattern) (f : ModifierForm)
    (rest : List (RPattern × ModifierForm)) (t : String) (caps : List String)
    (hm : patMatch p t = some caps) (hne : caps.isEmpty = false) :
    parseModifier ((p, f) :: rest) t = (applyPattern f t caps).map some := by
  simp [parseModifier, hm, hne]

theorem lookup_matchall_ne (r : Nat) :
    (r &&& KeywordFlag.MATCH_ALL != 0) = r.testBit 30 := by
  have hma : KeywordFlag.MATCH_ALL = 2 ^ 30 := by norm_num [KeywordFlag.MATCH_ALL]
  rw [hma, Nat.and_two_pow]
  cases hb : r.testBit 30 with
  | false => simp
  | true => simp

/-- C3.  The flag-matching laws of `match_keyword_flags`: an empty
requirement matches everything; a requirement carrying MATCH_ALL demands
every required bit (MATCH_ALL cleared on both sides); a non-empty
requirement without MATCH_ALL demands at least one overlapping bit. -/
theorem C3_match_keyword_flags_laws (h r : Nat) :
    match_keyword_flags h 0 = true ∧
    (r.testBit 30 = true →
      match_keyword_flags h r =
        ((clearMatchAll h &&& clearMatchAll r) == clearMatchAll r)) ∧
    (r.testBit 30 = false → r ≠ 0 →
      match_keyword_flags h r =
        ((clearMatchAll h &&& clearMatchAll r) != 0)) := by
  refine ⟨rfl, ?_, ?_⟩
  · intro hb
    unfold match_keyword_flags
    rw [lookup_matchall_ne, hb]
    simp
  · intro hb hr
    unfold match_keyword_flags
    rw [lookup_matchall_ne, hb]
    have hcr : clearMatchAll r = r := by
      unfold clearMatchAll
      rw [hb]
      simp
    have hr0 : (clearMatchAll r == 0) = false := by
      rw [hcr]
      simpa using hr
    simp [hr0]

/-- Witness for C3 at concrete inputs: FIRE|COLD vs FIRE|MATCH_ALL is the
all-required law, FIRE|COLD vs FIRE the any-overlap law. -/
theorem C3_match_keyword_flags_laws_witness :
    match_keyword_flags 0x60 0x40000020 =
      ((clearMatchAll 0x60 &&& clearMatchAll 0x40000020) ==
        clearMatchAll 0x40000020) ∧
    match_keyword_flags 0x60 0x20 =
      ((clearMatchAll 0x60 &&& clearMatchAll 0x20) != 0) :=
  ⟨(C3_match_keyword_flags_laws 0x60 0x40000020).2.1 (by decide),
   (C3_match_keyword_flags_laws 0x60 0x20).2.2 (by decide) (by decide)⟩

/-- C8.  `ModFlag.verify_weapon_flags` rejects every flag set combining
WEAPON_MELEE with WEAPON_RANGED, rejects every flag set combining WEAPON_1H
with WEAPON_2H, and accepts (returns True for) every flag set satisfying all
four weapon invariants. -/
theorem C8_verify_weapon_flags_laws (flags : Nat) :
    (flags &&& ModFlag.WEAPON_MELEE ≠ 0 → flags &&& ModFlag.WEAPON_RANGED ≠ 0 →
      ∃ msg, ModFlag.verify_weapon_flags flags = .error msg) ∧
    (flags &&& ModFlag.WEAPON_1H ≠ 0 → flags &&& ModFlag.WEAPON_2H ≠ 0 →
      ∃ msg, ModFlag.verify_weapon_flags flags = .error msg) ∧
    (¬(flags &&& ModFlag.WEAPON_MELEE ≠ 0 ∧ flags &&& ModFlag.WEAPON_RANGED ≠ 0) →
      ¬(flags &&& ModFlag.WEAPON_1H ≠ 0 ∧ flags &&& ModFlag.WEAPON_2H ≠ 0) →
      (flags &&& ModFlag.weaponTypeFlags ≠ 0 → flags &&& ModFlag.WEAPON ≠ 0) →
      (flags &&& ModFlag.weaponClassFlags ≠ 0 → flags &&& ModFlag.weaponTypeFlags ≠ 0) →
      ModFlag.verify_weapon_flags flags = .ok true) := by
  unfold ModFlag.verify_weapon_flags
  refine ⟨?_, ?_, ?_⟩
  · intro h1 h2
    rw [if_pos (by simp [h1, h2])]
    exact ⟨_, rfl⟩
  · intro h1 h2
    by_cases hc : (flags &&& ModFlag.WEAPON_MELEE != 0 &&
        flags &&& ModFlag.WEAPON_RANGED != 0) = true
    · rw [if_pos hc]
      exact ⟨_, rfl⟩
    · rw [if_neg hc, if_pos (by simp [h1, h2])]
      exact ⟨_, rfl⟩
  · intro h1 h2 h3 h4
    rw [if_neg (by simpa using h1), if_neg (by simpa using h2),
      if_neg (by simpa using h3), if_neg (by simpa using h4)]

/-- Witness for C8 at concrete flag sets: melee+ranged is rejected,
1H+2H is rejected, and a consistent axe weapon is accepted. -/
theorem C8_verify_weapon_flags_laws_witness :
    (∃ msg, ModFlag.verify_weapon_flags
      (ModFlag.WEAPON ||| ModFlag.AXE ||| ModFlag.WEAPON_MELEE |||
        ModFlag.WEAPON_RANGED) = .error msg) ∧
    (∃ msg, ModFlag.verify_weapon_flags
      (ModFlag.WEAPON ||| ModFlag.AXE ||| ModFlag.WEAPON_1H |||
        ModFlag.WEAPON_2H) = .error msg) ∧
    ModFlag.verify_weapon_flags
      (ModFlag.WEAPON ||| ModFlag.AXE ||| ModFlag.WEAPON_MELEE |||
        ModFlag.WEAPON_1H) = .ok true :=
  ⟨(C8_verify_weapon_flags_laws
      (ModFlag.WEAPON ||| ModFlag.AXE ||| ModFlag.WEAPON_MELEE |||
        ModFlag.WEAPON_RANGED)).1 (by decide) (by decide),
   (C8_verify_weapon_flags_laws
      (ModFlag.WEAPON ||| ModFlag.AXE ||| ModFlag.WEAPON_1H |||
        ModFlag.WEAPON_2H)).2.1 (by decide) (by decide),
   (C8_verify_weapon_flags_laws
      (ModFlag.WEAPON ||| ModFlag.AXE ||| ModFlag.WEAPON_MELEE |||
        ModFlag.WEAPON_1H)).2.2 (by decide) (by decide) (by decide) (by decide)⟩

/-- C6 (amended).  Dispatch is first-truthy-match-wins: the classifier's
outcome is decided by the first registered pattern whose match yields a
non-empty capture list; every earlier pattern whose match is falsy (no
regex match, or a match with no capture groups) is skipped, and the
patterns registered after the deciding one are irrelevant. -/
theorem C6_first_truthy_match_wins
    (pre : List (RPattern × ModifierForm)) (p : RPattern) (f : ModifierForm)
    (post : List (RPattern × ModifierForm)) (t : String)
    (h1 : ∀ q ∈ pre, truthy (patMatch q.1 t) = false)
    (h2 : truthy (patMatch p t) = true) :
    parseModifier (pre ++ (p, f) :: post) t = parseModifier [(p, f)] t := by
  induction pre with
  | nil =>
      simp only [List.nil_append]
      obtain ⟨caps, hm, hne⟩ : ∃ caps, patMatch p t = some caps ∧
          caps.isEmpty = false := by
        cases hm : patMatch p t with
        | none => rw [hm] at h2; simp [truthy] at h2
        | some caps =>
            rw [hm] at h2
            exact ⟨caps, rfl, by simpa [truthy] using h2⟩
      rw [parseModifier_cons_truthy p f post t caps hm hne,
        parseModifier_cons_truthy p f [] t caps hm hne]
  | cons q pre' ih =>
      rw [List.cons_append, parseModifier_skip q _ t (h1 q (by simp))]
      exact ih (fun q' hq' => h1 q' (List.mem_cons_of_mem q hq'))

/-- Witness for C6 at a concrete table and text: the pattern for
`% increased` does not match `"5% reduced"`, the pattern for `% reduced`
does, so the scan's outcome is that of the `% reduced` pattern alone. -/
theorem C6_first_truthy_match_wins_witness :
    parseModifier [(pat0, .INCREASE), (pat2, .REDUCE), (pat23, .BASE)]
      "5% reduced" = parseModifier [(pat2, .REDUCE)] "5% reduced" :=
  C6_first_truthy_match_wins [(pat0, .INCREASE)] pat2 .REDUCE
    [(pat23, .BASE)] "5% reduced" (by decide) (by decide)

/-- A pattern of this development (not in the shipped table), registered
after the shipped zero-group FLAG pattern `"^you have "` to exhibit the
order-sensitivity failure: `^you have (\d+)`. -/
def patYouHaveNum : RPattern :=
  ⟨true, lits "you have " ++ [.group [.plus (.cls .digit)]]⟩

/-- Counterexample to C6 as stated: in a table registering the shipped
zero-group pattern `"^you have "` (FLAG) strictly before
`"^you have (\d+)"` (BASE), the text `"you have 5"` is matched by both
patterns, yet the classifier returns the BASE result of the later pattern:
the earlier pattern's match has no capture groups, `list(match.groups())`
is the empty list, and the walrus guard treats it as falsy. -/
theorem C6_counterexample :
    patMatch pat73 "you have 5" = some [] ∧
    patMatch patYouHaveNum "you have 5" = some ["5"] ∧
    parseModifier (addPattern (addPattern [] pat73 .FLAG) patYouHaveNum .BASE)
      "you have 5" = .ok (some (.numeric "you have 5" .BASE 5)) ∧
    ModifierForm.BASE ≠ ModifierForm.FLAG := by
  refine ⟨by decide, by decide, by decide, by decide⟩

/-- C1 (refuted by the code).  On an input no pattern matches,
`parse_modifier` returns Python `None` — an absent result, not an
explicit Unresolved/error value carrying the original text. -/
theorem C1_unmatched_input_returns_none :
    parseModifier create_modifier_manager "not a real modifier" =
      .ok none := by decide

/-- C2 (refuted by the code).  `DamageModifier` declares no validator, so
the damage-family branch happily constructs a record with
`min_damage = 10 > 5 = max_damage`; the invariant `0 ≤ min ≤ max` is not
enforced at construction. -/
theorem C2_damage_invariant_not_enforced :
    parseModifier create_modifier_manager "adds 10 to 5 fire damage" =
      .ok (some (.damage "adds 10 to 5 fire damage" .DAMAGE 10 5 "fire")) ∧
    ¬((0 : ℚ) ≤ 10 ∧ (10 : ℚ) ≤ 5) := by
  refine ⟨by decide, by norm_num⟩

/-- C4 (refuted by the code).  On `"you have onslaught"` the zero-group
FLAG pattern `"^you have "` does match, but its empty capture list is falsy
under the walrus guard, so the pattern is skipped and the classifier
returns `None` instead of a `NumericModifier` with form FLAG and value 0. -/
theorem C4_zero_group_flag_pattern_skipped :
    patMatch pat73 "you have onslaught" = some [] ∧
    parseModifier create_modifier_manager "you have onslaught" =
      .ok none := by
  refine ⟨by decide, by decide⟩

/-- C5 (refuted by the code).  On `"+.?"` the first BASE pattern matches
and captures `"+."`, which `float` cannot parse, so `parse_modifier`
raises `ValueError` to the caller instead of reporting a value. -/
theorem C5_malformed_capture_raises :
    parseModifier create_modifier_manager "+.?" =
      .error .valueError := by decide

/-- C7 (refuted by the code).  The simple-numeric pattern `"^(\d+)"` is
registered before the regeneration patterns and matches the leading `2` of
`"2.5 life regenerated per second"`, so the classifier returns
`NumericModifier(form=BASE, value=2.0)`; the REGEN_FLAT pattern would have
matched with captures `("2.5", "life")` but is never reached. -/
theorem C7_regen_input_shadowed :
    parseModifier create_modifier_manager "2.5 life regenerated per second" =
      .ok (some (.numeric "2.5 life regenerated per second" .BASE 2)) ∧
    patMatch pat23 "2.5 life regenerated per second" = some ["2"] ∧
    patMatch pat32 "2.5 life regenerated per second" =
      some ["2.5", "life"] := by
  refine ⟨by decide, by decide, by decide⟩

/-- C9.  The validator's Lua-token rewrite is unconditional, so the stored
form of the registered pattern `"^([\+\-][\d\.]+)%?"` is
`"^([\+\-][\d\.]+)\?"` (the rewrite turns `%?` into an escaped literal
question mark); consequently that pattern only matches text containing a
literal `?`, and `"+10 to"` matches none of the five sign-prefixed BASE
patterns — under the shipped table it matches nothing at all. -/
theorem C9_percent_question_rewritten_to_literal :
    luaToPython "^([\\+\\-][\\d\\.]+)%?" = "^([\\+\\-][\\d\\.]+)\\?" ∧
    RPattern.print pat6 = luaToPython "^([\\+\\-][\\d\\.]+)%?" ∧
    (∀ (t : String) (r : List String), patMatch pat6 t = some r →
      '?' ∈ t.data) ∧
    (patMatch pat6 "+10 to" = none ∧ patMatch pat7 "+10 to" = none ∧
      patMatch pat8 "+10 to" = none ∧ patMatch pat9 "+10 to" = none ∧
      patMatch pat10 "+10 to" = none) ∧
    parseModifier create_modifier_manager "+10 to" = .ok none := by
  refine ⟨by decide, by decide, ?_, by decide, by decide⟩
  intro t r h
  exact patMatch_requires_lit (by decide) h

/-- Witness for C9's universal component at a concrete input: the stored
pattern does match `"+10?"`, and that text indeed contains `'?'`. -/
theorem C9_percent_question_rewritten_to_literal_witness :
    '?' ∈ ("+10?" : String).data :=
  (C9_percent_question_rewritten_to_literal).2.2.1 "+10?" ["+10"] (by decide)

/-- C10.  `ModifierNameMap` declares exactly the twelve category fields of
the structure above; constructing it as `create_modifier_map` does, with
twenty-nine keyword groups, silently discards the nineteen undeclared
groups (pydantic's default `extra='ignore'`): the result is structurally
equal to one constructed from the ten declared groups alone, and the
leech phrase `"life leeched per second"` — although passed in the `leech`
keyword group — is present in no category of the built registry. -/
theorem C10_extra_keyword_groups_discarded :
    create_modifier_map = ModifierNameMap.ofKwargs
      [("attributes", grp_attributes), ("life_mana", grp_life_mana),
       ("defences", grp_defences), ("resistances", grp_resistances),
       ("charges", grp_charges), ("dot_effects", grp_dot_effects),
       ("skills", grp_skills), ("ailments", grp_ailments),
       ("flask", grp_flask), ("damage_taken", grp_damage_taken)] ∧
    ("life leeched per second", ["LifeLeechRate"]) ∈ grp_leech ∧
    create_modifier_map.attributes.lookup "life leeched per second" = none ∧
    create_modifier_map.life_mana.lookup "life leeched per second" = none ∧
    create_modifier_map.defences.lookup "life leeched per second" = none ∧
    create_modifier_map.damage_taken.lookup "life leeched per second" = none ∧
    create_modifier_map.resistances.lookup "life leeched per second" = none ∧
    create_modifier_map.charges.lookup "life leeched per second" = none ∧
    create_modifier_map.dot_effects.lookup "life leeched per second" = none ∧
    create_modifier_map.skills.lookup "life leeched per second" = none ∧
    create_modifier_map.buffs.lookup "life leeched per second" = none ∧
    create_modifier_map.damage.lookup "life leeched per second" = none ∧
    create_modifier_map.ailments.lookup "life leeched per second" = none ∧
    create_modifier_map.flask.lookup "life leeched per second" = none := by
  refine ⟨by decide, by decide, by decide, by decide, by decide, by decide,
    by decide, by decide, by decide, by decide, by decide, by decide,
    by decide, by decide⟩
